import Mathlib

/-!
# Bolero codec core: macro registry, clock-mux arbitration, SSR gating

A shallow embedding of `asoc/codecs/bolero/bolero-cdc.c`.

* The driver data (`struct bolero_priv`), the file-scope table
  `bolero_mclk_mux_tbl` and the log of calls that leave the driver are the
  fields of one record, `State`.
* Pointers are handles: a function or device pointer is an `Option Nat`
  (`none` is `NULL`).  A call through a `NULL` function pointer and an array
  index outside `[0, MAX_MACRO)` are faults: the operation returns `none`.
* Every call that leaves the file (clock callbacks, event handlers, the
  notifier chain, regmap, the bus, runtime PM, the ASoC core, the allocator)
  appends an `Event` to `State.trace`; the value such a call returns is read
  from `Env`, which may depend on the whole trace so far.  The collaborators
  are taken not to modify the driver data behind the driver's back.
* The mutex `clk_lock` is not modelled: operations run one at a time.
* So that the place of the lifecycle flag's stores among the outgoing calls can
  be stated, every store to `dev_up` made by an SSR callback is recorded in the
  history field `State.dev_up_stores`, together with the number of outgoing
  calls made before it.
-/

namespace Bolero

/-! ## Constants of the absent headers -/

/-- Modelled from the spec: the macro identities are the enumerators of
`bolero-cdc.h`, which is not among the sources.  `bolero_mclk_mux_tbl` has one
row per identity; rows 1, 2 and 3 name RX, WSA and VA as their own secondary
source, and TX is the first identity. -/
def START_MACRO : Nat := 0

/-- Modelled from the spec: the capture macro, first identity. -/
def TX_MACRO : Nat := 0

/-- Modelled from the spec: the playback macro. -/
def RX_MACRO : Nat := 1

/-- Modelled from the spec: the speaker-amp macro. -/
def WSA_MACRO : Nat := 2

/-- Modelled from the spec: the voice-activation macro. -/
def VA_MACRO : Nat := 3

/-- Modelled from the spec: number of macro identities (rows of the mux table). -/
def MAX_MACRO : Nat := 4

/-- Modelled from the spec: the single-source slot of `enum mclk_mux`. -/
def MCLK_MUX0 : Nat := 0

/-- Modelled from the spec: the cascaded (dual-source) slot of `enum mclk_mux`. -/
def MCLK_MUX1 : Nat := 1

/-- Modelled from the spec: number of slots of `enum mclk_mux`. -/
def MCLK_MUX_MAX : Nat := 2

/-- The errno behind `InvalidArgument`. -/
def EINVAL : Int := 22

/-- The errno behind `ResourceExhausted`. -/
def ENOMEM : Int := 12

/-! ## Data model -/

/-- One DAI descriptor, identified by a number; `0` is the all-zero descriptor
that `devm_kzalloc` leaves in fresh memory. -/
structure snd_soc_dai_driver where
  id : Nat
deriving DecidableEq

/-- The descriptor found in zero-filled memory. -/
def zero_dai : snd_soc_dai_driver := ⟨0⟩

/-- Modelled from the spec: the addresses of the three frame-sync generator
registers are macros of an absent header; they are kept apart by name. -/
inductive gen_reg where
  | BOLERO_CDC_VA_CLK_RST_CTRL_MCLK_CONTROL
  | BOLERO_CDC_VA_CLK_RST_CTRL_FS_CNT_CONTROL
  | BOLERO_CDC_VA_TOP_CSR_TOP_CFG0
deriving DecidableEq

/-- Modelled from the spec: the event codes that the SSR callbacks deliver to a
macro's `event_handler` are enumerators of the absent `bolero-cdc.h`; they are
kept apart by name. -/
inductive macro_evt where
  | BOLERO_MACRO_EVT_WAIT_VA_CLK_RESET
  | BOLERO_MACRO_EVT_SSR_UP
  | BOLERO_MACRO_EVT_SSR_DOWN
deriving DecidableEq

/-- Modelled from the spec: the codes that the SSR callbacks broadcast to the
analog-codec peer (pre-restart, restart-down, restart-up) are enumerators of an
absent header; they are kept apart by name. -/
inductive wcd_evt where
  | BOLERO_WCD_EVT_PA_OFF_PRE_SSR
  | BOLERO_WCD_EVT_SSR_DOWN
  | BOLERO_WCD_EVT_SSR_UP
deriving DecidableEq

/-- A call that leaves the driver. -/
inductive Event where
  | mclk_fn (fn : Nat) (dev : Option Nat) (enable : Bool)
  | regmap_update_bits (reg : gen_reg) (mask val : Nat)
  | ioread32 (io_base : Option Nat) (reg : Nat)
  | iowrite32 (io_base : Option Nat) (reg : Nat) (val : Nat)
  | pm_runtime_get_sync (dev : Option Nat)
  | pm_runtime_mark_last_busy (dev : Option Nat)
  | pm_runtime_put_autosuspend (dev : Option Nat)
  | event_handler (fn : Nat) (component : Option Nat) (event : macro_evt) (data : Nat)
  | blocking_notifier_call_chain (data : wcd_evt) (wcd_dev : Option Nat)
  | regcache_cache_only (enable : Bool)
  | devm_kzalloc (count : Nat)
  | snd_soc_register_component (dais : List snd_soc_dai_driver) (num_dai : Int)
  | snd_soc_unregister_component
deriving DecidableEq

/-- Results of the calls that leave the driver, as a function of the trace at
the moment of the call. -/
structure Env where
  mclk_fn : List Event → Nat → Option Nat → Bool → Int
  pm_runtime_get_sync : List Event → Option Nat → Int
  ioread32 : List Event → Option Nat → Nat → Nat
  devm_kzalloc : List Event → Nat → Bool
  snd_soc_register_component : List Event → Int

/-- Modelled from the spec: `struct macro_ops` is declared in the absent
`bolero-cdc.h`.  The fields are those read and written in `bolero-cdc.c`:
callbacks, owning device, register base and the macro's descriptor array with
its count. -/
structure macro_ops where
  init : Option Nat
  exit : Option Nat
  num_dais : Nat
  dev : Option Nat
  dai_ptr : Option (List snd_soc_dai_driver)
  mclk_fn : Option Nat
  event_handler : Option Nat
  reg_wake_irq : Option Nat
  set_port_map : Option Nat
  io_base : Option Nat

/-- The all-zero `macro_ops` of a freshly allocated `bolero_priv`. -/
def macro_ops_zero : macro_ops :=
  { init := none, exit := none, num_dais := 0, dev := none, dai_ptr := none,
    mclk_fn := none, event_handler := none, reg_wake_irq := none,
    set_port_map := none, io_base := none }

/-- The aggregated descriptor buffer `priv->bolero_dais`: the number of entries
it was allocated with and the memory starting at its address.  Entries of `mem`
at positions `cap` and above lie outside the allocation. -/
structure dai_buf where
  cap : Nat
  mem : List snd_soc_dai_driver
deriving DecidableEq

/-- A `struct device *` argument: its handle, whether its parent node is
compatible with "qcom,bolero-codec", and whether the parent carries the driver
data. -/
structure device where
  handle : Nat
  parent_compatible : Bool
  parent_drvdata : Bool
deriving DecidableEq

/-- Modelled from the spec: `struct bolero_priv` is declared in the absent
`internal.h`.  The fields are those read and written by the functions embedded
here, with counters as mathematical integers; the record also carries the
file-scope table `bolero_mclk_mux_tbl`, the trace of outgoing calls and the
history `dev_up_stores` of the stores to `dev_up` made by the SSR callbacks:
for each store, the length of the trace at that moment and the value stored. -/
structure State where
  dev : Option Nat
  component : Option Nat
  wcd_dev : Option Nat
  macro_params : Nat → macro_ops
  macros_supported : Nat → Bool
  num_dais : Int
  num_macros : Int
  num_macros_registered : Int
  bolero_dais : Option dai_buf
  current_mclk_mux_macro : Nat → Nat
  clk_users : Int
  dev_up : Bool
  initial_boot : Bool
  bolero_mclk_mux_tbl : Nat → Nat → Nat
  trace : List Event
  dev_up_stores : List (Nat × Bool)

/-- Array store `a[i] = v`. -/
def upd {α : Type} (a : Nat → α) (i : Nat) (v : α) : Nat → α :=
  fun j => if j = i then v else a j

/-- Two-dimensional array store `a[i][j] = v`. -/
def upd2 {α : Type} (a : Nat → Nat → α) (i j : Nat) (v : α) : Nat → Nat → α :=
  upd a i (upd (a i) j v)

/-- The initializer of `bolero_mclk_mux_tbl`: one row (primary, secondary) per
macro identity. -/
def bolero_mclk_mux_tbl_rows : List (List Nat) :=
  [[TX_MACRO, VA_MACRO],
   [TX_MACRO, RX_MACRO],
   [TX_MACRO, WSA_MACRO],
   [TX_MACRO, VA_MACRO]]

/-- The initial contents of `bolero_mclk_mux_tbl`, as an array indexed by macro
identity and mux slot. -/
def bolero_mclk_mux_tbl_init : Nat → Nat → Nat :=
  fun m j => (bolero_mclk_mux_tbl_rows.getD m []).getD j 0

/-- The macro indices visited by `for (macro_idx = START_MACRO; macro_idx < MAX_MACRO; macro_idx++)`. -/
def macro_indices : List Nat := List.range' START_MACRO (MAX_MACRO - START_MACRO)

/-- Append one event to the trace. -/
def emit (s : State) (e : Event) : State :=
  { s with trace := s.trace ++ [e] }

/-! ## RegisterPort -/

/-- Invocation `priv->macro_params[m].mclk_fn(priv->macro_params[m].dev, enable)`. -/
def call_mclk (env : Env) (s : State) (m : Nat) (enable : Bool) : Option (Int × State) :=
  if m < MAX_MACRO then
    match (s.macro_params m).mclk_fn with
    | none => none
    | some fn =>
      some (env.mclk_fn s.trace fn (s.macro_params m).dev enable,
            emit s (Event.mclk_fn fn (s.macro_params m).dev enable))
  else none

/-- The common exit of the register accessors (label `err`). -/
def reg_exit (s : State) : State :=
  emit (emit s (Event.pm_runtime_mark_last_busy (s.macro_params VA_MACRO).dev))
    (Event.pm_runtime_put_autosuspend (s.macro_params VA_MACRO).dev)

/-- Register read: result code, the byte stored through `val` (if any), new state. -/
def __bolero_reg_read (env : Env) (s : State) (macro_id reg : Nat) :
    Option (Int × Option Nat × State) :=
  if !s.dev_up then some (-EINVAL, none, reg_exit s)
  else
    let s1 := emit s (Event.pm_runtime_get_sync (s.macro_params VA_MACRO).dev)
    if macro_id < MAX_MACRO then
      let cur := s1.current_mclk_mux_macro macro_id
      if cur < MAX_MACRO then
        match (s1.macro_params cur).mclk_fn with
        | none => some (-EINVAL, none, reg_exit s1)
        | some _ =>
          match call_mclk env s1 cur true with
          | none => none
          | some (ret, s2) =>
            if ret ≠ 0 then some (ret, none, reg_exit s2)
            else
              let v := env.ioread32 s2.trace (s2.macro_params macro_id).io_base reg % 256
              let s3 := emit s2 (Event.ioread32 (s2.macro_params macro_id).io_base reg)
              match call_mclk env s3 cur false with
              | none => none
              | some (_, s4) => some (ret, some v, reg_exit s4)
      else none
    else none

/-- Register write: result code and new state. -/
def __bolero_reg_write (env : Env) (s : State) (macro_id reg val : Nat) :
    Option (Int × State) :=
  if !s.dev_up then some (-EINVAL, reg_exit s)
  else
    let ret0 := env.pm_runtime_get_sync s.trace (s.macro_params VA_MACRO).dev
    let s1 := emit s (Event.pm_runtime_get_sync (s.macro_params VA_MACRO).dev)
    if macro_id < MAX_MACRO then
      let cur := s1.current_mclk_mux_macro macro_id
      if cur < MAX_MACRO then
        match (s1.macro_params cur).mclk_fn with
        | none => some (ret0, reg_exit s1)
        | some _ =>
          match call_mclk env s1 cur true with
          | none => none
          | some (ret, s2) =>
            if ret ≠ 0 then some (ret, reg_exit s2)
            else
              let s3 := emit s2 (Event.iowrite32 (s2.macro_params macro_id).io_base reg (val % 256))
              match call_mclk env s3 cur false with
              | none => none
              | some (_, s4) => some (ret, reg_exit s4)
      else none
    else none

/-! ## ClockMuxArbiter -/

/-- The three writes that switch the frame-sync generator on. -/
def gen_on_writes : List Event :=
  [Event.regmap_update_bits gen_reg.BOLERO_CDC_VA_CLK_RST_CTRL_MCLK_CONTROL 0x01 0x01,
   Event.regmap_update_bits gen_reg.BOLERO_CDC_VA_CLK_RST_CTRL_FS_CNT_CONTROL 0x01 0x01,
   Event.regmap_update_bits gen_reg.BOLERO_CDC_VA_TOP_CSR_TOP_CFG0 0x02 0x02]

/-- The three writes that switch the frame-sync generator off. -/
def gen_off_writes : List Event :=
  [Event.regmap_update_bits gen_reg.BOLERO_CDC_VA_TOP_CSR_TOP_CFG0 0x02 0x00,
   Event.regmap_update_bits gen_reg.BOLERO_CDC_VA_CLK_RST_CTRL_FS_CNT_CONTROL 0x01 0x00,
   Event.regmap_update_bits gen_reg.BOLERO_CDC_VA_CLK_RST_CTRL_MCLK_CONTROL 0x01 0x00]

/-- Frame-sync generator edge, counted in `clk_users`. -/
def bolero_fs_gen_enable (s : State) (enable : Bool) : State :=
  if enable then
    let s1 := { s with clk_users := s.clk_users + 1 }
    if s1.clk_users = 1 then { s1 with trace := s1.trace ++ gen_on_writes } else s1
  else
    if s.clk_users ≤ 0 then { s with clk_users := 0 }
    else
      let s1 := { s with clk_users := s.clk_users - 1 }
      if s1.clk_users = 0 then { s1 with trace := s1.trace ++ gen_off_writes } else s1

/-- Check `of_device_is_compatible(dev->parent->of_node, "qcom,bolero-codec")`. -/
def bolero_is_valid_macro_dev (dev : device) : Bool := dev.parent_compatible

/-- The tail of `bolero_request_clock` reached without `goto err`: record the
active source of `macro_id`. -/
def set_current (s : State) (macro_id mclk_mux_id : Nat) (enable : Bool) : State :=
  if enable then
    { s with
      current_mclk_mux_macro :=
        upd s.current_mclk_mux_macro macro_id (s.bolero_mclk_mux_tbl macro_id mclk_mux_id) }
  else
    { s with
      current_mclk_mux_macro :=
        upd s.current_mclk_mux_macro macro_id (s.bolero_mclk_mux_tbl macro_id MCLK_MUX0) }

/-- Request for clock enable or disable: result code and new state. -/
def bolero_request_clock (env : Env) (dev : Option device) (macro_id mclk_mux_id : Nat)
    (enable : Bool) (s : State) : Option (Int × State) :=
  match dev with
  | none => some (-EINVAL, s)
  | some d =>
    if !bolero_is_valid_macro_dev d then some (-EINVAL, s)
    else if !d.parent_drvdata || decide (macro_id ≥ MAX_MACRO) then some (-EINVAL, s)
    else
      let mclk_mux0_macro := s.bolero_mclk_mux_tbl macro_id MCLK_MUX0
      if mclk_mux_id = MCLK_MUX0 then
        match call_mclk env s mclk_mux0_macro enable with
        | none => none
        | some (ret, s1) =>
          if ret < 0 then some (ret, s1)
          else some (ret, set_current (bolero_fs_gen_enable s1 enable) macro_id mclk_mux_id enable)
      else if mclk_mux_id = MCLK_MUX1 then
        let mclk_mux1_macro := s.bolero_mclk_mux_tbl macro_id MCLK_MUX1
        match call_mclk env s mclk_mux0_macro true with
        | none => none
        | some (ret, s1) =>
          if ret < 0 ∧ enable = true then some (ret, s1)
          else
            match call_mclk env (bolero_fs_gen_enable s1 enable) mclk_mux1_macro enable with
            | none => none
            | some (ret1, s3) =>
              let after_mux0 : Option State :=
                if ret = 0 then (call_mclk env s3 mclk_mux0_macro false).map Prod.snd
                else some s3
              match after_mux0 with
              | none => none
              | some s4 =>
                if enable = true ∧ ret1 ≠ 0 then some (ret, s4)
                else some (ret, set_current s4 macro_id mclk_mux_id enable)
      else some (-EINVAL, s)

/-! ## MacroRegistry -/

/-- Read `n` descriptors starting at `src`; positions past the end of the
source array read as zero descriptors. -/
def read_dais (src : List snd_soc_dai_driver) (n : Nat) : List snd_soc_dai_driver :=
  src.take n ++ List.replicate (n - src.length) zero_dai

/-- Copy `memcpy(mem + off, src, n * sizeof(struct snd_soc_dai_driver))`. -/
def memcpy_dais (mem : List snd_soc_dai_driver) (off : Nat)
    (src : List snd_soc_dai_driver) (n : Nat) : List snd_soc_dai_driver :=
  mem.take off ++ read_dais src n ++ mem.drop (off + n)

/-- The copy loop of `bolero_copy_dais_from_macro` over the given macro
indices: `off` is the distance of `dai_ptr` from the start of the buffer. -/
def copy_loop (mp : Nat → macro_ops) :
    List Nat → Nat → List snd_soc_dai_driver → Nat × List snd_soc_dai_driver
  | [], off, mem => (off, mem)
  | m :: rest, off, mem =>
    match (mp m).dai_ptr with
    | some src => copy_loop mp rest (off + (mp m).num_dais) (memcpy_dais mem off src (mp m).num_dais)
    | none => copy_loop mp rest off mem

/-- Build the aggregated descriptor buffer from the descriptor arrays of all macros. -/
def bolero_copy_dais_from_macro (env : Env) (s : State) : Int × State :=
  let s1 : State :=
    match s.bolero_dais with
    | some _ => s
    | none =>
      let s0 := emit s (Event.devm_kzalloc s.num_dais.toNat)
      if env.devm_kzalloc s.trace s.num_dais.toNat then
        { s0 with
          bolero_dais :=
            some { cap := s.num_dais.toNat, mem := List.replicate s.num_dais.toNat zero_dai } }
      else s0
  match s1.bolero_dais with
  | none => (-ENOMEM, s1)
  | some buf =>
    (0, { s1 with
          bolero_dais :=
            some { cap := buf.cap, mem := (copy_loop s1.macro_params macro_indices 0 buf.mem).2 } })

/-- Store the fields of `ops` into `priv->macro_params[macro_id]`. -/
def store_ops (old : macro_ops) (ops : macro_ops) (macro_id : Nat) (dev : device) : macro_ops :=
  { init := ops.init, exit := ops.exit, io_base := ops.io_base, num_dais := ops.num_dais,
    dai_ptr := ops.dai_ptr, mclk_fn := ops.mclk_fn, event_handler := ops.event_handler,
    set_port_map := ops.set_port_map, dev := some dev.handle,
    reg_wake_irq := if macro_id = TX_MACRO then ops.reg_wake_irq else old.reg_wake_irq }

/-- Attach a macro: result code and new state. -/
def bolero_register_macro (env : Env) (dev : Option device) (macro_id : Nat)
    (ops : Option macro_ops) (s : State) : Int × State :=
  match dev, ops with
  | none, _ => (-EINVAL, s)
  | _, none => (-EINVAL, s)
  | some d, some o =>
    if !bolero_is_valid_macro_dev d then (-EINVAL, s)
    else if !d.parent_drvdata || decide (macro_id ≥ MAX_MACRO) then (-EINVAL, s)
    else
      let s1 : State :=
        { s with
          macro_params := upd s.macro_params macro_id (store_ops (s.macro_params macro_id) o macro_id d)
          current_mclk_mux_macro :=
            upd s.current_mclk_mux_macro macro_id (s.bolero_mclk_mux_tbl macro_id MCLK_MUX0)
          num_dais := s.num_dais + o.num_dais
          num_macros_registered := s.num_macros_registered + 1
          macros_supported := upd s.macros_supported macro_id true }
      if s1.num_macros_registered = s1.num_macros then
        match bolero_copy_dais_from_macro env s1 with
        | (ret, s2) =>
          if ret < 0 then (ret, s2)
          else
            let s3 : State :=
              if s2.macros_supported TX_MACRO = false then
                { s2 with
                  bolero_mclk_mux_tbl :=
                    upd2 (upd2 s2.bolero_mclk_mux_tbl WSA_MACRO MCLK_MUX0 WSA_MACRO)
                      VA_MACRO MCLK_MUX0 VA_MACRO
                  current_mclk_mux_macro :=
                    upd (upd s2.current_mclk_mux_macro WSA_MACRO WSA_MACRO) VA_MACRO VA_MACRO }
              else s2
            let mem := match s3.bolero_dais with
              | some buf => buf.mem
              | none => []
            let ret2 := env.snd_soc_register_component s3.trace
            let s4 := emit s3 (Event.snd_soc_register_component mem s3.num_dais)
            if ret2 < 0 then (ret2, s4) else (0, s4)
      else (0, s1)

/-- Detach a macro. -/
def bolero_unregister_macro (dev : Option device) (macro_id : Nat) (s : State) : State :=
  match dev with
  | none => s
  | some d =>
    if !bolero_is_valid_macro_dev d then s
    else if !d.parent_drvdata || decide (macro_id ≥ MAX_MACRO) then s
    else
      let old := s.macro_params macro_id
      let cleared : macro_ops :=
        { old with
          init := none, num_dais := 0, dai_ptr := none, mclk_fn := none,
          event_handler := none, dev := none,
          reg_wake_irq := if macro_id = TX_MACRO then none else old.reg_wake_irq }
      let s1 : State := { s with macro_params := upd s.macro_params macro_id cleared }
      let s2 : State :=
        { s1 with
          num_dais := s1.num_dais - (s1.macro_params macro_id).num_dais
          num_macros_registered := s1.num_macros_registered - 1 }
      if s2.num_macros - 1 = s2.num_macros_registered then
        emit s2 Event.snd_soc_unregister_component
      else s2

/-! ## SSRController -/

/-- Broadcast on the notifier chain (`bolero_cdc_notifier_call`). -/
def bolero_cdc_notifier_call (s : State) (data : wcd_evt) : State :=
  emit s (Event.blocking_notifier_call_chain data s.wcd_dev)

/-- The store `priv->dev_up = up` of the SSR callbacks, made under `clk_lock`;
the history records it with the number of outgoing calls made so far. -/
def set_dev_up (s : State) (up : Bool) : State :=
  { s with dev_up := up, dev_up_stores := s.dev_up_stores ++ [(s.trace.length, up)] }

/-- The loop "call ssr event for supported macros". -/
def ssr_event_loop (evt : macro_evt) : List Nat → State → State
  | [], s => s
  | m :: rest, s =>
    match (s.macro_params m).event_handler with
    | none => ssr_event_loop evt rest s
    | some fn => ssr_event_loop evt rest (emit s (Event.event_handler fn s.component evt 0x0))

/-- The `enable` callback of the SSR framework (on_up). -/
def bolero_ssr_enable (s : State) : Int × State :=
  if s.initial_boot then (0, { s with initial_boot := false })
  else
    let s1 : State :=
      match (s.macro_params VA_MACRO).event_handler with
      | some fn =>
        emit s (Event.event_handler fn s.component macro_evt.BOLERO_MACRO_EVT_WAIT_VA_CLK_RESET 0x0)
      | none => s
    let s2 := emit s1 (Event.regcache_cache_only false)
    let s3 := set_dev_up s2 true
    let s4 := ssr_event_loop macro_evt.BOLERO_MACRO_EVT_SSR_UP macro_indices s3
    (0, bolero_cdc_notifier_call s4 wcd_evt.BOLERO_WCD_EVT_SSR_UP)

/-- The `disable` callback of the SSR framework (on_down). -/
def bolero_ssr_disable (s : State) : State :=
  let s1 := bolero_cdc_notifier_call s wcd_evt.BOLERO_WCD_EVT_PA_OFF_PRE_SSR
  let s2 := emit s1 (Event.regcache_cache_only true)
  let s3 := set_dev_up s2 false
  let s4 := ssr_event_loop macro_evt.BOLERO_MACRO_EVT_SSR_DOWN macro_indices s3
  bolero_cdc_notifier_call s4 wcd_evt.BOLERO_WCD_EVT_SSR_DOWN

/-- The driver data as a successful `bolero_probe` leaves it: zero-filled, with
the declared number of macros, `dev_up` and `initial_boot` set, and the mux
table in its initial contents. -/
def probe_state (pdev : Nat) (num_macros : Nat) : State :=
  { dev := some pdev, component := none, wcd_dev := none,
    macro_params := fun _ => macro_ops_zero,
    macros_supported := fun _ => false,
    num_dais := 0, num_macros := num_macros, num_macros_registered := 0,
    bolero_dais := none,
    current_mclk_mux_macro := fun _ => 0,
    clk_users := 0, dev_up := true, initial_boot := true,
    bolero_mclk_mux_tbl := bolero_mclk_mux_tbl_init,
    trace := [], dev_up_stores := [] }

/-- Probe: fails when the declared number of macros exceeds `MAX_MACRO`. -/
def bolero_probe (pdev : Nat) (num_macros : Nat) : Option State :=
  if num_macros > MAX_MACRO then none else some (probe_state pdev num_macros)

/-! ## Runs and scenarios used in the statements -/

/-- Run a sequence of SSR callbacks, oldest first: `true` is on_up
(`bolero_ssr_enable`), `false` is on_down (`bolero_ssr_disable`). -/
def ssr_run : List Bool → State → State
  | [], s => s
  | true :: rest, s => ssr_run rest (bolero_ssr_enable s).2
  | false :: rest, s => ssr_run rest (bolero_ssr_disable s)

/-- The events with which an SSR callback reaches the event handlers of the
macros `ms`, in the order of `ms`. -/
def handler_events (s : State) (evt : macro_evt) (ms : List Nat) : List Event :=
  ms.filterMap (fun m =>
    (s.macro_params m).event_handler.map (fun fn => Event.event_handler fn s.component evt 0x0))

/-- The notifications of a trace that went to the external peer. -/
def peer_notifications : List Event → List wcd_evt
  | [] => []
  | Event.blocking_notifier_call_chain data _ :: rest => data :: peer_notifications rest
  | _ :: rest => peer_notifications rest

/-- The generator register writes of a trace. -/
def gen_writes : List Event → List Event
  | [] => []
  | Event.regmap_update_bits reg mask val :: rest =>
    Event.regmap_update_bits reg mask val :: gen_writes rest
  | _ :: rest => gen_writes rest

/-- Scenario environment: the clock callback with handle 11 fails with -5,
every other external call succeeds. -/
def demo_env : Env :=
  { mclk_fn := fun _ fn _ _ => if fn = 11 then -5 else 0,
    pm_runtime_get_sync := fun _ _ => 0,
    ioread32 := fun _ _ _ => 0,
    devm_kzalloc := fun _ _ => true,
    snd_soc_register_component := fun _ => 0 }

/-- Scenario device: a genuine child of the codec device. -/
def demo_dev : device := { handle := 100, parent_compatible := true, parent_drvdata := true }

/-- Scenario descriptor bundle: clock callback `fn`, descriptors numbered `ids`,
no event handler. -/
def demo_ops (fn : Nat) (ids : List Nat) : macro_ops :=
  { macro_ops_zero with
    mclk_fn := some fn, num_dais := ids.length, dai_ptr := some (ids.map snd_soc_dai_driver.mk) }

/-- Scenario state: two macros declared; RX (clock callback 11, descriptors 7
and 8) attached first, then TX (clock callback 10, descriptor 5). -/
def demo_state : State :=
  ( bolero_register_macro demo_env (some demo_dev) TX_MACRO (some (demo_ops 10 [5]))
    ( bolero_register_macro demo_env (some demo_dev) RX_MACRO (some (demo_ops 11 [7, 8]))
      (probe_state 7 2)).2).2

/-- Scenario state: `demo_state` after on_down has set the lifecycle state to Down. -/
def demo_state_down : State := bolero_ssr_disable demo_state

/-- The calls of a full up transition made from state `s`, in order. -/
def ssr_up_events (s : State) : List Event :=
  (match (s.macro_params VA_MACRO).event_handler with
    | some fn =>
      [Event.event_handler fn s.component macro_evt.BOLERO_MACRO_EVT_WAIT_VA_CLK_RESET 0x0]
    | none => [])
  ++ [Event.regcache_cache_only false]
  ++ handler_events s macro_evt.BOLERO_MACRO_EVT_SSR_UP macro_indices
  ++ [Event.blocking_notifier_call_chain wcd_evt.BOLERO_WCD_EVT_SSR_UP s.wcd_dev]

/-- The calls of a down transition made from state `s`, in order. -/
def ssr_down_events (s : State) : List Event :=
  [Event.blocking_notifier_call_chain wcd_evt.BOLERO_WCD_EVT_PA_OFF_PRE_SSR s.wcd_dev,
   Event.regcache_cache_only true]
  ++ handler_events s macro_evt.BOLERO_MACRO_EVT_SSR_DOWN macro_indices
  ++ [Event.blocking_notifier_call_chain wcd_evt.BOLERO_WCD_EVT_SSR_DOWN s.wcd_dev]

/-! ## Attach sequences -/

/-- One `bolero_register_macro` call by a macro driver. -/
structure attach_call where
  dev : device
  macro_id : Nat
  ops : macro_ops

/-- Run a sequence of attach calls, oldest first. -/
def attach_all (env : Env) : List attach_call → State → State
  | [], s => s
  | a :: rest, s =>
    attach_all env rest ( bolero_register_macro env (some a.dev) a.macro_id (some a.ops) s).2

/-- The descriptor list of a bundle: the first `num_dais` entries at `dai_ptr`,
empty when `dai_ptr` is `NULL`. -/
def ops_dais (o : macro_ops) : List snd_soc_dai_driver :=
  match o.dai_ptr with
  | some src => read_dais src o.num_dais
  | none => []

/-- A bundle is well formed when its descriptor count does not exceed its
descriptor array, and is 0 when there is no array. -/
def ops_well_formed (o : macro_ops) : Bool :=
  match o.dai_ptr with
  | some src => decide (o.num_dais ≤ src.length)
  | none => decide (o.num_dais = 0)

/-- An attach call that passes the argument checks of `bolero_register_macro`
and carries a well-formed bundle. -/
def attach_valid (a : attach_call) : Bool :=
  a.dev.parent_compatible && a.dev.parent_drvdata && decide (a.macro_id < MAX_MACRO)
    && ops_well_formed a.ops

/-- The descriptor list that the attach calls give macro `m` (empty when `m`
does not attach). -/
def attached_dais (calls : List attach_call) (m : Nat) : List snd_soc_dai_driver :=
  match calls.find? (fun a => decide (a.macro_id = m)) with
  | some a => ops_dais a.ops
  | none => []

/-- Concatenation of the attached macros' descriptor lists in ascending
macro-identity order. -/
def ascending_concat (calls : List attach_call) : List snd_soc_dai_driver :=
  macro_indices.flatMap (attached_dais calls)

/-- Sum of the descriptor counts stored in `macro_params`. -/
def dais_total (mp : Nat → macro_ops) : Int :=
  (macro_indices.map (fun m => ((mp m).num_dais : Int))).sum

/-- The state after the stores of `bolero_register_macro`, before the test of
the attached count. -/
def attach_stored (a : attach_call) (s : State) : State :=
  { s with
    macro_params :=
      upd s.macro_params a.macro_id (store_ops (s.macro_params a.macro_id) a.ops a.macro_id a.dev)
    current_mclk_mux_macro :=
      upd s.current_mclk_mux_macro a.macro_id (s.bolero_mclk_mux_tbl a.macro_id MCLK_MUX0)
    num_dais := s.num_dais + a.ops.num_dais
    num_macros_registered := s.num_macros_registered + 1
    macros_supported := upd s.macros_supported a.macro_id true }

/-- What holds of the registry after the attach calls `done`, while fewer than
the expected number of macros have attached. -/
structure registry_inv (N : Int) (done : List attach_call) (s : State) : Prop where
  count : s.num_macros_registered = done.length
  nm : s.num_macros = N
  buf : s.bolero_dais = none
  tr : s.trace = []
  wf : ∀ m, ops_well_formed (s.macro_params m) = true
  nd : s.num_dais = dais_total s.macro_params
  att : ∀ a ∈ done, ops_dais (s.macro_params a.macro_id) = ops_dais a.ops
  det : ∀ m, (∀ a ∈ done, a.macro_id ≠ m) →
    (s.macro_params m).dai_ptr = none ∧ (s.macro_params m).num_dais = 0

/-- Scenario attach calls: RX with descriptors 7 and 8, TX with descriptor 5. -/
def demo_attach_rx : attach_call :=
  { dev := demo_dev, macro_id := RX_MACRO, ops := demo_ops 11 [7, 8] }

/-- Scenario attach call of the TX macro. -/
def demo_attach_tx : attach_call :=
  { dev := demo_dev, macro_id := TX_MACRO, ops := demo_ops 10 [5] }

/-! ## Further scenarios -/

/-- Scenario environment: the clock callback with handle 10 fails with -5,
every other external call succeeds. -/
def demo_env_tx_fails : Env :=
  { mclk_fn := fun _ fn _ _ => if fn = 10 then -5 else 0,
    pm_runtime_get_sync := fun _ _ => 0,
    ioread32 := fun _ _ _ => 0,
    devm_kzalloc := fun _ _ => true,
    snd_soc_register_component := fun _ => 0 }

/-- Scenario environment: every external call succeeds. -/
def demo_env_ok : Env :=
  { mclk_fn := fun _ _ _ _ => 0,
    pm_runtime_get_sync := fun _ _ => 0,
    ioread32 := fun _ _ _ => 0,
    devm_kzalloc := fun _ _ => true,
    snd_soc_register_component := fun _ => 0 }

/-- Scenario environment: the allocator fails, every other external call succeeds. -/
def demo_env_nomem : Env :=
  { mclk_fn := fun _ _ _ _ => 0,
    pm_runtime_get_sync := fun _ _ => 0,
    ioread32 := fun _ _ _ => 0,
    devm_kzalloc := fun _ _ => false,
    snd_soc_register_component := fun _ => 0 }

/-- Scenario attach call of the WSA macro: clock callback 12, descriptor 9. -/
def demo_attach_wsa : attach_call :=
  { dev := demo_dev, macro_id := WSA_MACRO, ops := demo_ops 12 [9] }

/-- Scenario attach call of the VA macro: clock callback 13, descriptors 3 and 4. -/
def demo_attach_va : attach_call :=
  { dev := demo_dev, macro_id := VA_MACRO, ops := demo_ops 13 [3, 4] }

/-! ## Attach and detach sequences -/

/-- One call of a macro driver into the registry. -/
inductive registry_op where
  | attach (a : attach_call)
  | detach (dev : device) (macro_id : Nat)

/-- Perform one registry call. -/
def registry_step (env : Env) (op : registry_op) (s : State) : State :=
  match op with
  | registry_op.attach a =>
    ( bolero_register_macro env (some a.dev) a.macro_id (some a.ops) s).2
  | registry_op.detach d m => bolero_unregister_macro (some d) m s

/-- Run a sequence of registry calls, oldest first. -/
def registry_run (env : Env) : List registry_op → State → State
  | [], s => s
  | op :: rest, s => registry_run env rest (registry_step env op s)

/-- The identities attached after the calls `ops`, when `att` were attached
before them. -/
def attached_after : List Nat → List registry_op → List Nat
  | att, [] => att
  | att, registry_op.attach a :: rest => attached_after (a.macro_id :: att) rest
  | att, registry_op.detach _ m :: rest => attached_after (att.erase m) rest

/-- The calls `ops` pass the argument checks, every attach targets a macro
that is detached at that moment and every detach one that is attached, when
`att` are attached before them. -/
def ops_admissible : List Nat → List registry_op → Bool
  | _, [] => true
  | att, registry_op.attach a :: rest =>
    a.dev.parent_compatible && a.dev.parent_drvdata && decide (a.macro_id < MAX_MACRO)
      && decide (a.macro_id ∉ att) && ops_admissible (a.macro_id :: att) rest
  | att, registry_op.detach d m :: rest =>
    d.parent_compatible && d.parent_drvdata && decide (m < MAX_MACRO)
      && decide (m ∈ att) && ops_admissible (att.erase m) rest

/-- The external registration calls of a trace, oldest first: `true` for
`snd_soc_register_component`, `false` for `snd_soc_unregister_component`. -/
def registration_calls : List Event → List Bool
  | [] => []
  | Event.snd_soc_register_component _ _ :: rest => true :: registration_calls rest
  | Event.snd_soc_unregister_component :: rest => false :: registration_calls rest
  | _ :: rest => registration_calls rest

/-- The composite registration is published after a trace when the last
external registration call in it is a register call. -/
def published (t : List Event) : Bool := (registration_calls t).getLast?.getD false

/-- What holds between the registry and the identities `att` attached so far. -/
structure publish_inv (N : Nat) (att : List Nat) (s : State) : Prop where
  nm : s.num_macros = N
  count : s.num_macros_registered = att.length
  pub : published s.trace = decide (N ≤ att.length)

/-! ## Scenarios for the register port and the SSR order -/

/-- The call with which an SSR callback reaches the event handler of macro `m`
from state `s`: one call when the macro has a handler, none otherwise. -/
def handler_event (s : State) (evt : macro_evt) (m : Nat) : List Event :=
  match (s.macro_params m).event_handler with
  | some fn => [Event.event_handler fn s.component evt 0x0]
  | none => []

/-- Scenario descriptor bundle with an event handler `ev`. -/
def demo_ops_ev (fn ev : Nat) (ids : List Nat) : macro_ops :=
  { demo_ops fn ids with event_handler := some ev }

/-- Scenario state: two macros declared; TX (event handler 20) and VA (event
handler 23) attached, and the first, suppressed on_up already consumed. -/
def demo_state_handlers : State :=
  (bolero_ssr_enable
    ( bolero_register_macro demo_env (some demo_dev) VA_MACRO (some (demo_ops_ev 13 23 [3, 4]))
      ( bolero_register_macro demo_env (some demo_dev) TX_MACRO (some (demo_ops_ev 10 20 [5]))
        (probe_state 7 2)).2).2).2

/-- Scenario state: one macro declared and RX attached alone, so that RX's
active source is TX, which has no clock callback. -/
def demo_state_rx_only : State := attach_all demo_env [demo_attach_rx] (probe_state 7 1)

/-- The bus accesses of a trace. -/
def bus_accesses : List Event → List Event
  | [] => []
  | Event.ioread32 io_base reg :: rest => Event.ioread32 io_base reg :: bus_accesses rest
  | Event.iowrite32 io_base reg val :: rest => Event.iowrite32 io_base reg val :: bus_accesses rest
  | _ :: rest => bus_accesses rest

/-! ## Invocations of one clock callback -/

/-- The enable flags with which the clock callback `fn` was invoked on the
device `dev` in a trace, oldest first. -/
def mclk_calls (fn : Nat) (dev : Option Nat) : List Event → List Bool
  | [] => []
  | Event.mclk_fn f d e :: rest =>
    if f = fn ∧ d = dev then e :: mclk_calls fn dev rest else mclk_calls fn dev rest
  | _ :: rest => mclk_calls fn dev rest

/-- Scenario state: two macros declared; VA and WSA attached and TX absent, so
that the final attach has patched the WSA and VA rows of the mux table to name
the macro itself as primary source. -/
def demo_state_patched : State :=
  attach_all demo_env [demo_attach_va, demo_attach_wsa] (probe_state 7 2)

/-! ## Theorems -/

/-! ### Clock-mux arbiter: auxiliary facts -/

theorem call_mclk_eq (env : Env) (s : State) (m fn : Nat) (enable : Bool)
    (hm : m < MAX_MACRO) (hfn : (s.macro_params m).mclk_fn = some fn) :
    call_mclk env s m enable =
      some (env.mclk_fn s.trace fn (s.macro_params m).dev enable,
            emit s (Event.mclk_fn fn (s.macro_params m).dev enable)) := by
  simp [call_mclk, hm, hfn]

theorem fs_gen_enable_true (s : State) :
    bolero_fs_gen_enable s true =
      { s with
        clk_users := s.clk_users + 1
        trace := s.trace ++ (if s.clk_users = 0 then gen_on_writes else []) } := by
  unfold bolero_fs_gen_enable
  by_cases hc : s.clk_users = 0
  · simp [hc]
  · simp [hc]

theorem mux1_ne_mux0 : MCLK_MUX1 ≠ MCLK_MUX0 := by decide

/-- The cascaded enable whose primary callback returns 0 and whose secondary
callback returns a non-zero code: the code returned and the state reached. -/
theorem request_clock_mux1_secondary_fails (env : Env) (s : State) (d : device)
    (macro_id fp fq : Nat)
    (hd : d.parent_compatible = true) (hpd : d.parent_drvdata = true)
    (hm : macro_id < MAX_MACRO)
    (hp : s.bolero_mclk_mux_tbl macro_id MCLK_MUX0 < MAX_MACRO)
    (hq : s.bolero_mclk_mux_tbl macro_id MCLK_MUX1 < MAX_MACRO)
    (hfp : (s.macro_params (s.bolero_mclk_mux_tbl macro_id MCLK_MUX0)).mclk_fn = some fp)
    (hfq : (s.macro_params (s.bolero_mclk_mux_tbl macro_id MCLK_MUX1)).mclk_fn = some fq)
    (h0 : env.mclk_fn s.trace fp
            (s.macro_params (s.bolero_mclk_mux_tbl macro_id MCLK_MUX0)).dev true = 0)
    (h1 : env.mclk_fn
            (s.trace ++ [Event.mclk_fn fp
                (s.macro_params (s.bolero_mclk_mux_tbl macro_id MCLK_MUX0)).dev true]
              ++ (if s.clk_users = 0 then gen_on_writes else []))
            fq (s.macro_params (s.bolero_mclk_mux_tbl macro_id MCLK_MUX1)).dev true ≠ 0) :
    bolero_request_clock env (some d) macro_id MCLK_MUX1 true s =
      some (0,
        { s with
          clk_users := s.clk_users + 1
          trace :=
            s.trace ++ [Event.mclk_fn fp
                (s.macro_params (s.bolero_mclk_mux_tbl macro_id MCLK_MUX0)).dev true]
              ++ (if s.clk_users = 0 then gen_on_writes else [])
              ++ [Event.mclk_fn fq
                    (s.macro_params (s.bolero_mclk_mux_tbl macro_id MCLK_MUX1)).dev true,
                  Event.mclk_fn fp
                    (s.macro_params (s.bolero_mclk_mux_tbl macro_id MCLK_MUX0)).dev false] }) := by
  have hm' : ¬ (macro_id ≥ MAX_MACRO) := by omega
  unfold bolero_request_clock
  simp only [bolero_is_valid_macro_dev, hd, hpd, hm', mux1_ne_mux0, Bool.not_true, Bool.false_eq_true,
    if_false, decide_False, Bool.or_self, if_true]
  rw [call_mclk_eq env s _ fp true hp hfp, h0]
  simp only [lt_irrefl, false_and, if_false]
  rw [fs_gen_enable_true]
  rw [call_mclk_eq env _ _ fq true hq (by simpa [emit] using hfq)]
  simp only [emit, if_true]
  rw [call_mclk_eq env _ _ fp false hp (by simpa using hfp)]
  simp only [emit, Option.map_some', List.append_assoc, List.singleton_append, List.cons_append,
    List.nil_append] at h1 ⊢
  simp [h1]

theorem call_mclk_dev_up (env : Env) (s : State) (m : Nat) (enable b : Bool) :
    call_mclk env { s with dev_up := b } m enable =
      (call_mclk env s m enable).map (fun r => (r.1, { r.2 with dev_up := b })) := by
  unfold call_mclk
  by_cases hm : m < MAX_MACRO
  · simp only [hm, if_true]
    cases h : (s.macro_params m).mclk_fn <;> simp [emit]
  · simp [hm]

theorem fs_gen_enable_dev_up (s : State) (enable b : Bool) :
    bolero_fs_gen_enable { s with dev_up := b } enable =
      { bolero_fs_gen_enable s enable with dev_up := b } := by
  unfold bolero_fs_gen_enable
  cases enable <;> simp <;> split_ifs <;> rfl

theorem set_current_dev_up (s : State) (macro_id mux : Nat) (enable b : Bool) :
    set_current { s with dev_up := b } macro_id mux enable =
      { set_current s macro_id mux enable with dev_up := b } := by
  unfold set_current
  cases enable <;> rfl

/-! ### C4 -/

/-- C4 fails on the code: in `demo_state` the cascaded enable for RX invokes
the primary source TX, whose callback returns 0, then the secondary source RX,
whose callback returns -5, and `bolero_request_clock` returns 0, the primary's
result, instead of the secondary's failure code. -/
theorem request_clock_secondary_failure_returns_primary_result :
    demo_state.bolero_mclk_mux_tbl RX_MACRO MCLK_MUX0 = TX_MACRO ∧
    demo_state.bolero_mclk_mux_tbl RX_MACRO MCLK_MUX1 = RX_MACRO ∧
    (call_mclk demo_env demo_state TX_MACRO true).map Prod.fst = some 0 ∧
    ((call_mclk demo_env demo_state TX_MACRO true).bind
        (fun r => call_mclk demo_env (bolero_fs_gen_enable r.2 true) RX_MACRO true)).map Prod.fst
      = some (-5) ∧
    (bolero_request_clock demo_env (some demo_dev) RX_MACRO MCLK_MUX1 true demo_state).map Prod.fst
      = some 0 := by
  decide

/-! ### C5 -/

/-- C6 fails on the code: in `demo_state` (`clk_users = 0`) the cascaded enable
for RX whose secondary callback fails leaves `clk_users = 1` and the generator
switched on; the following single-source enable then ends with `clk_users = 2`
and writes no generator register, whereas without the failed attempt it ends
with `clk_users = 1` after the three generator-on writes. -/
theorem request_clock_secondary_failure_leaks_clk_users :
    demo_state.clk_users = 0 ∧
    (bolero_request_clock demo_env (some demo_dev) RX_MACRO MCLK_MUX1 true demo_state).map
        (fun r => (r.1, r.2.clk_users, gen_writes (r.2.trace.drop demo_state.trace.length)))
      = some (0, 1, gen_on_writes) ∧
    ((bolero_request_clock demo_env (some demo_dev) RX_MACRO MCLK_MUX1 true demo_state).bind
        (fun r =>
          (bolero_request_clock demo_env (some demo_dev) RX_MACRO MCLK_MUX0 true r.2).map
            (fun r2 => (r2.1, r2.2.clk_users, gen_writes (r2.2.trace.drop r.2.trace.length)))))
      = some (0, 2, []) ∧
    (bolero_request_clock demo_env (some demo_dev) RX_MACRO MCLK_MUX0 true demo_state).map
        (fun r => (r.1, r.2.clk_users, gen_writes (r.2.trace.drop demo_state.trace.length)))
      = some (0, 1, gen_on_writes) := by
  decide

/-! ### C7 -/

/-- C7 fails on the code: in `demo_state_down` the lifecycle state is Down, yet
the single-source enable for RX returns 0 and raises `clk_users` from 0 to 1. -/
theorem request_clock_while_down_succeeds :
    demo_state_down.dev_up = false ∧
    demo_state_down.clk_users = 0 ∧
    (bolero_request_clock demo_env (some demo_dev) RX_MACRO MCLK_MUX0 true demo_state_down).map
        (fun r => (r.1, r.2.clk_users, r.2.dev_up))
      = some (0, 1, false) := by
  decide

/-- How far the missing gate reaches: `bolero_request_clock` never reads
`dev_up`, unlike the register accessors, which test it under the same lock.
For every state, every argument and both values `b` of `dev_up`, the call made
with `dev_up = b` returns the same code and reaches the same state (same
callbacks and generator writes in the trace, same `clk_users` and
`current_mclk_mux_macro`) as the same call made on the original state, with
`dev_up` left at `b`. -/
theorem request_clock_ignores_dev_up (env : Env) (dev : Option device)
    (macro_id mclk_mux_id : Nat) (enable : Bool) (s : State) (b : Bool) :
    bolero_request_clock env dev macro_id mclk_mux_id enable { s with dev_up := b } =
      (bolero_request_clock env dev macro_id mclk_mux_id enable s).map
        (fun r => (r.1, { r.2 with dev_up := b })) := by
  unfold bolero_request_clock
  cases dev with
  | none => rfl
  | some d =>
    simp only []
    by_cases hv : bolero_is_valid_macro_dev d = true
    swap
    · simp [hv]
    by_cases hg : (!d.parent_drvdata || decide (macro_id ≥ MAX_MACRO)) = true
    · simp [hv, hg]
    simp only [hv, hg, Bool.not_true, Bool.false_eq_true, if_false]
    by_cases h0 : mclk_mux_id = MCLK_MUX0
    · simp only [h0, if_true, call_mclk_dev_up]
      cases hc : call_mclk env s (s.bolero_mclk_mux_tbl macro_id MCLK_MUX0) enable with
      | none => rfl
      | some r =>
        obtain ⟨ret, s1⟩ := r
        simp only [Option.map_some']
        by_cases hr : ret < 0
        · simp [hr]
        · simp [hr, fs_gen_enable_dev_up, set_current_dev_up]
    · by_cases h1 : mclk_mux_id = MCLK_MUX1
      · simp only [h1, mux1_ne_mux0, if_false, if_true, call_mclk_dev_up]
        cases hc : call_mclk env s (s.bolero_mclk_mux_tbl macro_id MCLK_MUX0) true with
        | none => rfl
        | some r =>
          obtain ⟨ret, s1⟩ := r
          simp only [Option.map_some']
          by_cases hr : ret < 0 ∧ enable = true
          · simp [hr]
          · simp only [hr, if_false, fs_gen_enable_dev_up, call_mclk_dev_up]
            cases hc2 : call_mclk env (bolero_fs_gen_enable s1 enable)
                (s.bolero_mclk_mux_tbl macro_id MCLK_MUX1) enable with
            | none => rfl
            | some r2 =>
              obtain ⟨ret1, s3⟩ := r2
              simp only [Option.map_some']
              by_cases hz : ret = 0
              · simp only [hz, if_true, call_mclk_dev_up]
                cases hc3 : call_mclk env s3 (s.bolero_mclk_mux_tbl macro_id MCLK_MUX0) false with
                | none => rfl
                | some r3 =>
                  simp only [Option.map_some', Option.map_map]
                  by_cases he : enable = true ∧ ret1 ≠ 0
                  · simp [he]
                  · simp [he, set_current_dev_up]
              · simp only [hz, if_false]
                by_cases he : enable = true ∧ ret1 ≠ 0
                · simp [he]
                · simp [he, set_current_dev_up]
      · simp [h0, h1]

/-! ### C8 -/

/-- C8: while `dev_up` is false, `__bolero_reg_read` and `__bolero_reg_write`
return `-EINVAL` (non-zero), read nothing, and append to the trace only the two
runtime-PM release calls of the common exit: no bus access and no clock
callback; `current_mclk_mux_macro`, `clk_users` and `dev_up` are unchanged. -/
theorem reg_access_refused_while_down (env : Env) (s : State) (macro_id reg val : Nat)
    (hdown : s.dev_up = false) :
    -EINVAL ≠ 0 ∧
    __bolero_reg_read env s macro_id reg = some (-EINVAL, none, reg_exit s) ∧
    __bolero_reg_write env s macro_id reg val = some (-EINVAL, reg_exit s) ∧
    (reg_exit s).trace =
      s.trace ++ [Event.pm_runtime_mark_last_busy (s.macro_params VA_MACRO).dev,
                  Event.pm_runtime_put_autosuspend (s.macro_params VA_MACRO).dev] ∧
    State.current_mclk_mux_macro (reg_exit s) = s.current_mclk_mux_macro ∧
    (reg_exit s).clk_users = s.clk_users ∧
    (reg_exit s).dev_up = false := by
  refine ⟨by decide, ?_, ?_, ?_, rfl, rfl, hdown⟩
  · simp [__bolero_reg_read, hdown]
  · simp [__bolero_reg_write, hdown]
  · simp [reg_exit, emit]

/-- Witness for C8: a read and a write of RX register 4 in `demo_state_down`. -/
theorem reg_access_refused_while_down_witness :
    demo_state_down.dev_up = false ∧
    -EINVAL ≠ 0 ∧
    __bolero_reg_read demo_env demo_state_down RX_MACRO 4
      = some (-EINVAL, none, reg_exit demo_state_down) ∧
    __bolero_reg_write demo_env demo_state_down RX_MACRO 4 9
      = some (-EINVAL, reg_exit demo_state_down) ∧
    (reg_exit demo_state_down).trace =
      demo_state_down.trace ++
        [Event.pm_runtime_mark_last_busy (demo_state_down.macro_params VA_MACRO).dev,
         Event.pm_runtime_put_autosuspend (demo_state_down.macro_params VA_MACRO).dev] ∧
    State.current_mclk_mux_macro (reg_exit demo_state_down) = demo_state_down.current_mclk_mux_macro ∧
    (reg_exit demo_state_down).clk_users = demo_state_down.clk_users ∧
    (reg_exit demo_state_down).dev_up = false :=
  ⟨by decide, reg_access_refused_while_down demo_env demo_state_down RX_MACRO 4 9 (by decide)⟩

/-! ### SSR controller: auxiliary facts -/

theorem ssr_event_loop_eq (evt : macro_evt) (ms : List Nat) (s : State) :
    ssr_event_loop evt ms s = { s with trace := s.trace ++ handler_events s evt ms } := by
  induction ms generalizing s with
  | nil => simp [ssr_event_loop, handler_events]
  | cons m rest ih =>
    unfold ssr_event_loop
    cases h : (s.macro_params m).event_handler with
    | none =>
      simp only []
      rw [ih]
      simp [handler_events, h]
    | some fn =>
      simp only []
      rw [ih]
      simp [handler_events, h, emit]

theorem ssr_enable_full (s : State) (h : s.initial_boot = false) :
    bolero_ssr_enable s =
      (0, { s with
            dev_up := true
            trace := s.trace ++ ssr_up_events s
            dev_up_stores := s.dev_up_stores ++
              [((s.trace ++ handler_event s macro_evt.BOLERO_MACRO_EVT_WAIT_VA_CLK_RESET VA_MACRO
                  ++ [Event.regcache_cache_only false]).length, true)] }) := by
  unfold bolero_ssr_enable
  simp only [h, Bool.false_eq_true, if_false, ssr_event_loop_eq, bolero_cdc_notifier_call,
    set_dev_up]
  cases hv : (s.macro_params VA_MACRO).event_handler <;>
    simp [ssr_up_events, hv, emit, handler_events, handler_event, h]

theorem ssr_disable_eq (s : State) :
    bolero_ssr_disable s =
      { s with
        dev_up := false
        trace := s.trace ++ ssr_down_events s
        dev_up_stores := s.dev_up_stores ++ [(s.trace.length + 2, false)] } := by
  unfold bolero_ssr_disable
  simp [ssr_event_loop_eq, bolero_cdc_notifier_call, ssr_down_events, emit, handler_events,
    set_dev_up]

theorem handler_events_none (s : State) (evt : macro_evt)
    (h : ∀ m, m < MAX_MACRO → (s.macro_params m).event_handler = none) :
    handler_events s evt macro_indices = [] := by
  have h0 := h 0 (by decide)
  have h1 := h 1 (by decide)
  have h2 := h 2 (by decide)
  have h3 := h 3 (by decide)
  simp [handler_events, macro_indices, START_MACRO, MAX_MACRO, List.range', h0, h1, h2, h3]

theorem ssr_run_initial_boot (evs : List Bool) (s : State) (h : s.initial_boot = false) :
    (ssr_run evs s).initial_boot = false := by
  induction evs generalizing s with
  | nil => simpa [ssr_run] using h
  | cons b rest ih =>
    cases b
    · simp only [ssr_run]
      apply ih
      rw [ssr_disable_eq]
      exact h
    · simp only [ssr_run]
      apply ih
      rw [ssr_enable_full s h]
      exact h

/-! ### C9 -/

/-- C9 fails on the code: in `demo_state` no macro has an event handler and
the first on_up has not yet been seen (`initial_boot` is still set); on_down
then on_up ends with `dev_up = false` and only two notifications, pre-restart
and restart-down, reach the peer. -/
theorem ssr_down_up_suppressed_on_initial_boot :
    (∀ m, m < MAX_MACRO → (demo_state.macro_params m).event_handler = none) ∧
    demo_state.initial_boot = true ∧
    (bolero_ssr_enable (bolero_ssr_disable demo_state)).2.dev_up = false ∧
    peer_notifications
        ((bolero_ssr_enable (bolero_ssr_disable demo_state)).2.trace.drop demo_state.trace.length)
      = [wcd_evt.BOLERO_WCD_EVT_PA_OFF_PRE_SSR, wcd_evt.BOLERO_WCD_EVT_SSR_DOWN] := by
  decide

/-- C9, amended: for every state in which the initial on_up has already been
consumed (`initial_boot = false`) and no macro has an event handler, on_down
followed by on_up ends with `dev_up = true`, and the calls made are exactly:
pre-restart notification, cache-only on, restart-down notification, cache-only
off, restart-up notification; so the peer receives exactly the three
notifications pre-restart, restart-down, restart-up in that order. -/
theorem ssr_down_up_three_notifications (s : State)
    (hboot : s.initial_boot = false)
    (hnone : ∀ m, m < MAX_MACRO → (s.macro_params m).event_handler = none) :
    (bolero_ssr_enable (bolero_ssr_disable s)).1 = 0 ∧
    (bolero_ssr_enable (bolero_ssr_disable s)).2.dev_up = true ∧
    (bolero_ssr_enable (bolero_ssr_disable s)).2.trace =
      s.trace ++
        [Event.blocking_notifier_call_chain wcd_evt.BOLERO_WCD_EVT_PA_OFF_PRE_SSR s.wcd_dev,
         Event.regcache_cache_only true,
         Event.blocking_notifier_call_chain wcd_evt.BOLERO_WCD_EVT_SSR_DOWN s.wcd_dev,
         Event.regcache_cache_only false,
         Event.blocking_notifier_call_chain wcd_evt.BOLERO_WCD_EVT_SSR_UP s.wcd_dev] ∧
    peer_notifications
        ((bolero_ssr_enable (bolero_ssr_disable s)).2.trace.drop s.trace.length)
      = [wcd_evt.BOLERO_WCD_EVT_PA_OFF_PRE_SSR, wcd_evt.BOLERO_WCD_EVT_SSR_DOWN,
         wcd_evt.BOLERO_WCD_EVT_SSR_UP] := by
  have hd : bolero_ssr_disable s =
      { s with
        dev_up := false
        trace := s.trace ++ ssr_down_events s
        dev_up_stores := s.dev_up_stores ++ [(s.trace.length + 2, false)] } := ssr_disable_eq s
  have he := ssr_enable_full (bolero_ssr_disable s) (by rw [hd]; exact hboot)
  have hn1 : handler_events (bolero_ssr_disable s) macro_evt.BOLERO_MACRO_EVT_SSR_UP macro_indices
      = [] := handler_events_none _ _ (by rw [hd]; exact hnone)
  have hn2 := handler_events_none s macro_evt.BOLERO_MACRO_EVT_SSR_DOWN hnone
  have hva : ((bolero_ssr_disable s).macro_params VA_MACRO).event_handler = none := by
    rw [hd]; exact hnone VA_MACRO (by decide)
  have htr : (bolero_ssr_enable (bolero_ssr_disable s)).2.trace =
      s.trace ++
        [Event.blocking_notifier_call_chain wcd_evt.BOLERO_WCD_EVT_PA_OFF_PRE_SSR s.wcd_dev,
         Event.regcache_cache_only true,
         Event.blocking_notifier_call_chain wcd_evt.BOLERO_WCD_EVT_SSR_DOWN s.wcd_dev,
         Event.regcache_cache_only false,
         Event.blocking_notifier_call_chain wcd_evt.BOLERO_WCD_EVT_SSR_UP s.wcd_dev] := by
    rw [he]
    simp only [ssr_up_events, hn1, hva]
    rw [hd]
    simp [ssr_down_events, hn2]
  refine ⟨by rw [he], by rw [he], htr, ?_⟩
  rw [htr]
  simp [peer_notifications]

/-- Witness for C9 (amended): `demo_state` after its first, suppressed on_up. -/
theorem ssr_down_up_three_notifications_witness :
    (bolero_ssr_enable demo_state).2.initial_boot = false ∧
    (∀ m, m < MAX_MACRO → ((bolero_ssr_enable demo_state).2.macro_params m).event_handler = none) ∧
    (bolero_ssr_enable (bolero_ssr_disable (bolero_ssr_enable demo_state).2)).2.dev_up = true ∧
    peer_notifications
        ((bolero_ssr_enable (bolero_ssr_disable (bolero_ssr_enable demo_state).2)).2.trace.drop
          (bolero_ssr_enable demo_state).2.trace.length)
      = [wcd_evt.BOLERO_WCD_EVT_PA_OFF_PRE_SSR, wcd_evt.BOLERO_WCD_EVT_SSR_DOWN,
         wcd_evt.BOLERO_WCD_EVT_SSR_UP] :=
  ⟨by decide, by decide,
    (ssr_down_up_three_notifications (bolero_ssr_enable demo_state).2 (by decide) (by decide)).2.1,
    (ssr_down_up_three_notifications (bolero_ssr_enable demo_state).2 (by decide) (by decide)).2.2.2⟩

/-! ### C10 -/

/-- C10: the first on_up after construction (`initial_boot = true`) returns 0
and changes nothing but `initial_boot`, which it clears: no event handler is
called, no notification is broadcast, the transport mode is not touched and
`dev_up` is unchanged.  After it, through any sequence of further SSR
callbacks, `initial_boot` stays clear and every on_up performs the full up
transition: it sets `dev_up` and makes the calls `ssr_up_events`. -/
theorem ssr_enable_first_is_suppressed (s : State) (hboot : s.initial_boot = true) :
    bolero_ssr_enable s = (0, { s with initial_boot := false }) ∧
    (bolero_ssr_enable s).2.trace = s.trace ∧
    (bolero_ssr_enable s).2.dev_up = s.dev_up ∧
    ∀ evs : List Bool,
      (ssr_run evs (bolero_ssr_enable s).2).initial_boot = false ∧
      (bolero_ssr_enable (ssr_run evs (bolero_ssr_enable s).2)).1 = 0 ∧
      (bolero_ssr_enable (ssr_run evs (bolero_ssr_enable s).2)).2.dev_up = true ∧
      (bolero_ssr_enable (ssr_run evs (bolero_ssr_enable s).2)).2.trace =
        (ssr_run evs (bolero_ssr_enable s).2).trace
          ++ ssr_up_events (ssr_run evs (bolero_ssr_enable s).2) := by
  have h1 : bolero_ssr_enable s = (0, { s with initial_boot := false }) := by
    simp [bolero_ssr_enable, hboot]
  refine ⟨h1, by rw [h1], by rw [h1], ?_⟩
  intro evs
  have hb : (ssr_run evs (bolero_ssr_enable s).2).initial_boot = false :=
    ssr_run_initial_boot evs _ (by rw [h1])
  have he := ssr_enable_full _ hb
  exact ⟨hb, by rw [he], by rw [he], by rw [he]⟩

/-- Witness for C10: the first on_up in `demo_state`. -/
theorem ssr_enable_first_is_suppressed_witness :
    demo_state.initial_boot = true ∧
    bolero_ssr_enable demo_state = (0, { demo_state with initial_boot := false }) ∧
    (bolero_ssr_enable demo_state).2.trace = demo_state.trace ∧
    (bolero_ssr_enable demo_state).2.dev_up = demo_state.dev_up :=
  ⟨by decide,
    (ssr_enable_first_is_suppressed demo_state (by decide)).1,
    (ssr_enable_first_is_suppressed demo_state (by decide)).2.1,
    (ssr_enable_first_is_suppressed demo_state (by decide)).2.2.1⟩

/-! ### Macro registry: auxiliary facts -/

theorem read_dais_length (src : List snd_soc_dai_driver) (n : Nat) :
    (read_dais src n).length = n := by
  simp [read_dais]
  omega

theorem ops_dais_length (o : macro_ops) (h : ops_well_formed o = true) :
    ((ops_dais o).length : Int) = o.num_dais := by
  unfold ops_well_formed at h
  unfold ops_dais
  cases hp : o.dai_ptr with
  | none => simp [hp] at h ⊢; omega
  | some src => simp [read_dais_length]

theorem memcpy_dais_take (mem src : List snd_soc_dai_driver) (off n : Nat)
    (hoff : off ≤ mem.length) :
    (memcpy_dais mem off src n).take (off + n) = mem.take off ++ read_dais src n := by
  unfold memcpy_dais
  apply List.take_left'
  simp [read_dais_length, hoff]

theorem memcpy_dais_drop (mem src : List snd_soc_dai_driver) (off n k : Nat)
    (hoff : off ≤ mem.length) :
    (memcpy_dais mem off src n).drop (off + n + k) = mem.drop (off + n + k) := by
  unfold memcpy_dais
  have hl : (List.take off mem ++ read_dais src n).length = off + n := by
    simp [read_dais_length, hoff]
  rw [← List.drop_drop, List.drop_left' hl, List.drop_drop]

theorem memcpy_dais_length (mem src : List snd_soc_dai_driver) (off n : Nat)
    (hoff : off ≤ mem.length) :
    off + n ≤ (memcpy_dais mem off src n).length := by
  unfold memcpy_dais
  simp [read_dais_length, hoff]

theorem copy_loop_eq (mp : Nat → macro_ops) (ms : List Nat) (off : Nat)
    (mem : List snd_soc_dai_driver)
    (hoff : off ≤ mem.length) :
    copy_loop mp ms off mem =
      (off + (ms.flatMap (fun m => ops_dais (mp m))).length,
       mem.take off ++ ms.flatMap (fun m => ops_dais (mp m))
         ++ mem.drop (off + (ms.flatMap (fun m => ops_dais (mp m))).length)) := by
  induction ms generalizing off mem with
  | nil => simp [copy_loop]
  | cons m rest ih =>
    unfold copy_loop
    cases hp : (mp m).dai_ptr with
    | none =>
      simp only []
      rw [ih off mem hoff]
      simp [ops_dais, hp]
    | some src =>
      simp only []
      rw [ih _ _ (memcpy_dais_length mem src off _ hoff)]
      have hl : (read_dais src (mp m).num_dais).length = (mp m).num_dais := read_dais_length _ _
      rw [memcpy_dais_take _ _ _ _ hoff, memcpy_dais_drop _ _ _ _ _ hoff]
      simp only [List.flatMap_cons, ops_dais, hp, List.length_append, hl, List.append_assoc,
        Nat.add_assoc]

theorem macro_indices_eq : macro_indices = [0, 1, 2, 3] := by decide

theorem flatMap_dais_length (mp : Nat → macro_ops) (hw : ∀ m, ops_well_formed (mp m) = true) :
    ((macro_indices.flatMap (fun m => ops_dais (mp m))).length : Int) = dais_total mp := by
  have h0 := ops_dais_length _ (hw 0)
  have h1 := ops_dais_length _ (hw 1)
  have h2 := ops_dais_length _ (hw 2)
  have h3 := ops_dais_length _ (hw 3)
  simp only [dais_total, macro_indices_eq, List.flatMap_cons, List.flatMap_nil, List.length_append,
    List.length_nil, List.map_cons, List.map_nil, List.sum_cons, List.sum_nil, Nat.cast_add,
    Nat.cast_zero]
  omega

theorem attach_valid_iff (a : attach_call) :
    attach_valid a = true ↔
      a.dev.parent_compatible = true ∧ a.dev.parent_drvdata = true ∧ a.macro_id < MAX_MACRO ∧
        ops_well_formed a.ops = true := by
  simp [attach_valid, and_assoc]

theorem register_not_full (env : Env) (a : attach_call) (s : State)
    (hv : attach_valid a = true)
    (hn : s.num_macros_registered + 1 ≠ s.num_macros) :
    bolero_register_macro env (some a.dev) a.macro_id (some a.ops) s = (0, attach_stored a s) := by
  obtain ⟨h1, h2, h3, _⟩ := (attach_valid_iff a).1 hv
  have h3' : ¬ (a.macro_id ≥ MAX_MACRO) := by omega
  simp [ bolero_register_macro, bolero_is_valid_macro_dev, h1, h2, h3', hn, attach_stored]

theorem register_full (env : Env) (a : attach_call) (s : State)
    (hv : attach_valid a = true)
    (hn : s.num_macros_registered + 1 = s.num_macros)
    (hb : s.bolero_dais = none)
    (ha : env.devm_kzalloc s.trace (attach_stored a s).num_dais.toNat = true) :
    ( bolero_register_macro env (some a.dev) a.macro_id (some a.ops) s).2.bolero_dais =
        some { cap := (attach_stored a s).num_dais.toNat,
               mem := (copy_loop (attach_stored a s).macro_params macro_indices 0
                        (List.replicate (attach_stored a s).num_dais.toNat zero_dai)).2 } ∧
    ( bolero_register_macro env (some a.dev) a.macro_id (some a.ops) s).2.trace =
        s.trace ++
          [Event.devm_kzalloc (attach_stored a s).num_dais.toNat,
           Event.snd_soc_register_component
             (copy_loop (attach_stored a s).macro_params macro_indices 0
                (List.replicate (attach_stored a s).num_dais.toNat zero_dai)).2
             (attach_stored a s).num_dais] := by
  obtain ⟨h1, h2, h3, _⟩ := (attach_valid_iff a).1 hv
  have h3' : ¬ (a.macro_id ≥ MAX_MACRO) := by omega
  have ha' : env.devm_kzalloc s.trace (s.num_dais + (a.ops.num_dais : Int)).toNat = true := ha
  unfold bolero_register_macro
  simp only [bolero_is_valid_macro_dev, h1, h2, h3', hn, Bool.not_true, Bool.false_eq_true,
    if_false, decide_False, Bool.or_self, if_true]
  unfold bolero_copy_dais_from_macro
  simp only [hb, ha', if_true, emit]
  have hneg : ¬ ((0 : Int) < 0) := by decide
  simp only [hneg, if_false]
  by_cases htx : upd s.macros_supported a.macro_id true TX_MACRO = false
  · simp only [htx, if_true]
    by_cases hr : env.snd_soc_register_component
        (s.trace ++ [Event.devm_kzalloc (s.num_dais + (a.ops.num_dais : Int)).toNat]) < 0
    · simp [hr, attach_stored]
    · simp [hr, attach_stored]
  · simp only [htx, if_false]
    by_cases hr : env.snd_soc_register_component
        (s.trace ++ [Event.devm_kzalloc (s.num_dais + (a.ops.num_dais : Int)).toNat]) < 0
    · simp [hr, attach_stored]
    · simp [hr, attach_stored]

theorem ops_dais_store (old o : macro_ops) (m : Nat) (d : device) :
    ops_dais (store_ops old o m d) = ops_dais o := rfl

theorem ops_well_formed_store (old o : macro_ops) (m : Nat) (d : device) :
    ops_well_formed (store_ops old o m d) = ops_well_formed o := rfl

theorem dais_total_upd (mp : Nat → macro_ops) (i : Nat) (o : macro_ops)
    (hi : i < MAX_MACRO) (hz : (mp i).num_dais = 0) :
    dais_total (upd mp i o) = dais_total mp + o.num_dais := by
  have hi4 : i < 4 := hi
  simp only [dais_total, macro_indices_eq, List.map_cons, List.map_nil, List.sum_cons,
    List.sum_nil, upd]
  interval_cases i <;> simp_all <;> omega

theorem probe_state_inv (pdev N : Nat) : registry_inv N [] (probe_state pdev N) where
  count := rfl
  nm := rfl
  buf := rfl
  tr := rfl
  wf := fun _ => rfl
  nd := by simp [probe_state, dais_total, macro_ops_zero]
  att := by simp
  det := fun _ _ => ⟨rfl, rfl⟩

theorem registry_inv_step (N : Int) (done : List attach_call) (s : State) (a : attach_call)
    (hinv : registry_inv N done s) (hv : attach_valid a = true)
    (hnew : ∀ b ∈ done, b.macro_id ≠ a.macro_id) :
    registry_inv N (done ++ [a]) (attach_stored a s) := by
  obtain ⟨_, _, h3, h4⟩ := (attach_valid_iff a).1 hv
  refine ⟨?_, hinv.nm, hinv.buf, hinv.tr, ?_, ?_, ?_, ?_⟩
  · simp [attach_stored, hinv.count]
  · intro m
    by_cases hm : m = a.macro_id
    · simp [attach_stored, upd, hm, ops_well_formed_store, h4]
    · simp [attach_stored, upd, hm, hinv.wf m]
  · have hz := (hinv.det a.macro_id hnew).2
    simp only [attach_stored]
    rw [dais_total_upd _ _ _ h3 hz, hinv.nd]
    rfl
  · intro b hb
    rcases List.mem_append.1 hb with hb | hb
    · have hne := hnew b hb
      simp [attach_stored, upd, hne, hinv.att b hb]
    · have hba : b = a := by simpa using hb
      subst hba
      simp [attach_stored, upd, ops_dais_store]
  · intro m hm
    have hne : m ≠ a.macro_id := fun h => hm a (by simp) h.symm
    have := hinv.det m (fun b hb => hm b (List.mem_append.2 (Or.inl hb)))
    simpa [attach_stored, upd, hne] using this

theorem registry_inv_dais (N : Int) (all : List attach_call) (s : State)
    (hinv : registry_inv N all s) :
    macro_indices.flatMap (fun m => ops_dais (s.macro_params m)) = ascending_concat all := by
  have hpt : (fun m => ops_dais (s.macro_params m)) = attached_dais all := by
    funext m
    unfold attached_dais
    cases hf : all.find? (fun a => decide (a.macro_id = m)) with
    | none =>
      have hnone := List.find?_eq_none.1 hf
      have hd := hinv.det m (fun b hb h => hnone b hb (by simpa using h))
      simp [ops_dais, hd.1]
    | some b =>
      have hb := List.mem_of_find?_eq_some hf
      have hbm : b.macro_id = m := by simpa using List.find?_some hf
      simp only []
      rw [← hbm]
      exact hinv.att b hb
  rw [hpt]
  rfl

/-- From a registry that satisfies the invariant for the calls `done`, the
remaining calls `rest`, the last of which reaches the expected count, build and
publish the ascending concatenation. -/
theorem attach_all_builds (env : Env) (N : Int) (rest done : List attach_call) (s : State)
    (hinv : registry_inv N done s) (hne : rest ≠ [])
    (hv : ∀ a ∈ rest, attach_valid a = true)
    (hnd : ((done ++ rest).map attach_call.macro_id).Nodup)
    (hN : (done.length : Int) + rest.length = N)
    (halloc : ∀ t n, env.devm_kzalloc t n = true) :
    (attach_all env rest s).bolero_dais =
        some { cap := (ascending_concat (done ++ rest)).length,
               mem := ascending_concat (done ++ rest) } ∧
    (attach_all env rest s).trace =
        [Event.devm_kzalloc (ascending_concat (done ++ rest)).length,
         Event.snd_soc_register_component (ascending_concat (done ++ rest))
           (ascending_concat (done ++ rest)).length] := by
  induction rest generalizing done s with
  | nil => exact absurd rfl hne
  | cons a rest ih =>
    have hva := hv a (by simp)
    have hnew : ∀ b ∈ done, b.macro_id ≠ a.macro_id := by
      intro b hb heq
      rw [List.map_append, List.nodup_append] at hnd
      exact hnd.2.2 (List.mem_map_of_mem _ hb) (by rw [heq]; simp)
    have hinv' := registry_inv_step N done s a hinv hva hnew
    have happ : done ++ a :: rest = (done ++ [a]) ++ rest := by simp
    cases rest with
    | nil =>
      have hfull : s.num_macros_registered + 1 = s.num_macros := by
        rw [hinv.count, hinv.nm, ← hN]; simp
      obtain ⟨hb, ht⟩ := register_full env a s hva hfull hinv.buf (halloc _ _)
      have hlen := flatMap_dais_length (attach_stored a s).macro_params hinv'.wf
      have hd := registry_inv_dais N _ _ hinv'
      rw [hd] at hlen
      have hn : (attach_stored a s).num_dais.toNat = (ascending_concat (done ++ [a])).length := by
        rw [hinv'.nd, ← hlen]; simp
      have hnum : (attach_stored a s).num_dais = ((ascending_concat (done ++ [a])).length : Int) := by
        rw [hinv'.nd, ← hlen]
      have hcopy : (copy_loop (attach_stored a s).macro_params macro_indices 0
          (List.replicate (attach_stored a s).num_dais.toNat zero_dai)).2
          = ascending_concat (done ++ [a]) := by
        rw [copy_loop_eq _ _ _ _ (Nat.zero_le _), hd, hn]
        simp
      simp only [attach_all]
      rw [hb, ht, hcopy, hn, hnum, hinv.tr]
      exact ⟨rfl, rfl⟩
    | cons b rest =>
      have hnot : s.num_macros_registered + 1 ≠ s.num_macros := by
        rw [hinv.count, hinv.nm, ← hN]
        simp only [List.length_cons, Nat.cast_add, Nat.cast_one]
        omega
      simp only [attach_all]
      rw [register_not_full env a s hva hnot]
      rw [happ]
      apply ih (done ++ [a]) (attach_stored a s) hinv' (by simp)
      · intro c hc
        exact hv c (List.mem_cons_of_mem _ hc)
      · rw [← happ]; exact hnd
      · rw [← hN]
        simp only [List.length_append, List.length_cons, List.length_nil, Nat.cast_add,
          Nat.cast_one]
        omega

theorem attached_dais_perm (calls calls' : List attach_call) (m : Nat)
    (hperm : calls.Perm calls') (hnd : (calls.map attach_call.macro_id).Nodup) :
    attached_dais calls m = attached_dais calls' m := by
  unfold attached_dais
  cases hf : calls.find? (fun a => decide (a.macro_id = m)) with
  | none =>
    have hnone := List.find?_eq_none.1 hf
    have hf' : calls'.find? (fun a => decide (a.macro_id = m)) = none :=
      List.find?_eq_none.2 (fun x hx => hnone x (hperm.mem_iff.2 hx))
    rw [hf']
  | some a =>
    have ha := List.mem_of_find?_eq_some hf
    have ham : a.macro_id = m := by simpa using List.find?_some hf
    cases hf' : calls'.find? (fun a => decide (a.macro_id = m)) with
    | none =>
      have hnone := List.find?_eq_none.1 hf'
      exact absurd (by simpa using ham) (hnone a (hperm.mem_iff.1 ha))
    | some b =>
      have hb := hperm.mem_iff.2 (List.mem_of_find?_eq_some hf')
      have hbm : b.macro_id = m := by simpa using List.find?_some hf'
      have hab : a = b := List.inj_on_of_nodup_map hnd ha hb (by rw [ham, hbm])
      rw [hab]

theorem ascending_concat_perm (calls calls' : List attach_call)
    (hperm : calls.Perm calls') (hnd : (calls.map attach_call.macro_id).Nodup) :
    ascending_concat calls = ascending_concat calls' := by
  unfold ascending_concat
  have : attached_dais calls = attached_dais calls' :=
    funext (fun m => attached_dais_perm calls calls' m hperm hnd)
  rw [this]

/-! ### C1 -/

/-- C1: let `calls` be attach calls of distinct macros, each passing the
argument checks with a well-formed bundle, and let the expected count be their
number.  Started from the probe state, with the allocation succeeding, the
buffer built on the last attach holds exactly the concatenation of the attached
macros' descriptor lists in ascending macro-identity order, and that list with
its length is what is passed to the external registration.  Every other arrival
order `calls'` of the same calls builds and publishes the same list. -/
theorem composite_is_ascending_concat (env : Env) (pdev : Nat) (calls calls' : List attach_call)
    (hne : calls ≠ []) (hperm : calls.Perm calls')
    (hv : ∀ a ∈ calls, attach_valid a = true)
    (hnd : (calls.map attach_call.macro_id).Nodup)
    (halloc : ∀ t n, env.devm_kzalloc t n = true) :
    (attach_all env calls (probe_state pdev calls.length)).bolero_dais =
        some { cap := (ascending_concat calls).length, mem := ascending_concat calls } ∧
    (attach_all env calls (probe_state pdev calls.length)).trace =
        [Event.devm_kzalloc (ascending_concat calls).length,
         Event.snd_soc_register_component (ascending_concat calls)
           (ascending_concat calls).length] ∧
    (attach_all env calls' (probe_state pdev calls'.length)).bolero_dais =
        (attach_all env calls (probe_state pdev calls.length)).bolero_dais ∧
    (attach_all env calls' (probe_state pdev calls'.length)).trace =
        (attach_all env calls (probe_state pdev calls.length)).trace := by
  have h1 := attach_all_builds env calls.length calls [] (probe_state pdev calls.length)
    (probe_state_inv pdev calls.length) hne hv (by simpa using hnd) (by simp) halloc
  have hne' : calls' ≠ [] := fun h => hne (by rw [h] at hperm; exact hperm.eq_nil)
  have hv' : ∀ a ∈ calls', attach_valid a = true := fun a ha => hv a (hperm.mem_iff.2 ha)
  have hnd' : (calls'.map attach_call.macro_id).Nodup :=
    (List.Perm.nodup_iff (hperm.map _)).1 hnd
  have h2 := attach_all_builds env calls'.length calls' [] (probe_state pdev calls'.length)
    (probe_state_inv pdev calls'.length) hne' hv' (by simpa using hnd') (by simp) halloc
  simp only [List.nil_append] at h1 h2
  have hc := ascending_concat_perm calls calls' hperm hnd
  refine ⟨h1.1, h1.2, ?_, ?_⟩
  · rw [h2.1, h1.1, hc]
  · rw [h2.2, h1.2, hc]

/-- Witness for C1: RX then TX, against TX then RX, with two macros expected. -/
theorem composite_is_ascending_concat_witness :
    (attach_all demo_env [demo_attach_rx, demo_attach_tx] (probe_state 7 2)).bolero_dais =
        some { cap := 3, mem := [⟨5⟩, ⟨7⟩, ⟨8⟩] } ∧
    (attach_all demo_env [demo_attach_tx, demo_attach_rx] (probe_state 7 2)).bolero_dais =
        (attach_all demo_env [demo_attach_rx, demo_attach_tx] (probe_state 7 2)).bolero_dais :=
  ⟨(composite_is_ascending_concat demo_env 7 [demo_attach_rx, demo_attach_tx]
      [demo_attach_tx, demo_attach_rx] (List.cons_ne_nil _ _) (List.Perm.swap _ _ _)
      (by decide) (by decide) (fun _ _ => rfl)).1,
   (composite_is_ascending_concat demo_env 7 [demo_attach_rx, demo_attach_tx]
      [demo_attach_tx, demo_attach_rx] (List.cons_ne_nil _ _) (List.Perm.swap _ _ _)
      (by decide) (by decide) (fun _ _ => rfl)).2.2.1⟩

/-! ### C2 -/

/-- C2 fails on the code: `demo_state` is fully attached and has published the
list 5, 7, 8 with count 3.  Detaching TX and attaching it again with the same
bundle publishes the same list with count 4: the detach subtracts the macro's
descriptor count only after clearing it, so `num_dais` keeps TX's descriptor
and the re-attach adds it once more. -/
theorem reattach_publishes_larger_count :
    demo_state.trace =
      [Event.devm_kzalloc 3, Event.snd_soc_register_component [⟨5⟩, ⟨7⟩, ⟨8⟩] 3] ∧
    demo_state.num_dais = 3 ∧
    ( bolero_unregister_macro (some demo_dev) TX_MACRO demo_state).num_dais = 3 ∧
    ( bolero_register_macro demo_env (some demo_dev) TX_MACRO (some (demo_ops 10 [5]))
        ( bolero_unregister_macro (some demo_dev) TX_MACRO demo_state)).2.trace =
      demo_state.trace ++
        [Event.snd_soc_unregister_component,
         Event.snd_soc_register_component [⟨5⟩, ⟨7⟩, ⟨8⟩] 4] := by
  decide

/-! ### Clock-mux arbiter: further auxiliary facts -/

theorem fs_gen_enable_false (s : State) :
    bolero_fs_gen_enable s false =
      { s with
        clk_users := if s.clk_users ≤ 0 then 0 else s.clk_users - 1
        trace := s.trace ++ (if s.clk_users = 1 then gen_off_writes else []) } := by
  unfold bolero_fs_gen_enable
  by_cases h0 : s.clk_users ≤ 0
  · have h1 : s.clk_users ≠ 1 := by omega
    simp [h0, h1]
  · by_cases h1 : s.clk_users = 1
    · simp [h1]
    · have h2 : ¬ (s.clk_users - 1 = 0) := by omega
      simp [h0, h1, h2]

/-- The cascaded disable with valid arguments and both callbacks present: the
code returned and the state reached. -/
theorem request_clock_mux1_disable_eq (env : Env) (s : State) (d : device)
    (macro_id fp fq : Nat)
    (hd : d.parent_compatible = true) (hpd : d.parent_drvdata = true)
    (hm : macro_id < MAX_MACRO)
    (hp : s.bolero_mclk_mux_tbl macro_id MCLK_MUX0 < MAX_MACRO)
    (hq : s.bolero_mclk_mux_tbl macro_id MCLK_MUX1 < MAX_MACRO)
    (hfp : (s.macro_params (s.bolero_mclk_mux_tbl macro_id MCLK_MUX0)).mclk_fn = some fp)
    (hfq : (s.macro_params (s.bolero_mclk_mux_tbl macro_id MCLK_MUX1)).mclk_fn = some fq) :
    bolero_request_clock env (some d) macro_id MCLK_MUX1 false s =
      some (env.mclk_fn s.trace fp
              (s.macro_params (s.bolero_mclk_mux_tbl macro_id MCLK_MUX0)).dev true,
        { s with
          clk_users := if s.clk_users ≤ 0 then 0 else s.clk_users - 1
          current_mclk_mux_macro :=
            upd s.current_mclk_mux_macro macro_id (s.bolero_mclk_mux_tbl macro_id MCLK_MUX0)
          trace :=
            s.trace ++ [Event.mclk_fn fp
                (s.macro_params (s.bolero_mclk_mux_tbl macro_id MCLK_MUX0)).dev true]
              ++ (if s.clk_users = 1 then gen_off_writes else [])
              ++ [Event.mclk_fn fq
                    (s.macro_params (s.bolero_mclk_mux_tbl macro_id MCLK_MUX1)).dev false]
              ++ (if env.mclk_fn s.trace fp
                      (s.macro_params (s.bolero_mclk_mux_tbl macro_id MCLK_MUX0)).dev true = 0
                  then [Event.mclk_fn fp
                    (s.macro_params (s.bolero_mclk_mux_tbl macro_id MCLK_MUX0)).dev false]
                  else []) }) := by
  have hm' : ¬ (macro_id ≥ MAX_MACRO) := by omega
  unfold bolero_request_clock
  simp only [bolero_is_valid_macro_dev, hd, hpd, hm', mux1_ne_mux0, Bool.not_true, Bool.false_eq_true,
    if_false, decide_False, Bool.or_self, if_true]
  rw [call_mclk_eq env s _ fp true hp hfp]
  simp only [and_false, if_false]
  rw [fs_gen_enable_false]
  rw [call_mclk_eq env _ _ fq false hq (by simpa [emit] using hfq)]
  simp only [false_and, if_false]
  by_cases hr : env.mclk_fn s.trace fp
      (s.macro_params (s.bolero_mclk_mux_tbl macro_id MCLK_MUX0)).dev true = 0
  · simp only [hr, if_true]
    rw [call_mclk_eq env _ _ fp false hp (by simpa [emit] using hfp)]
    simp [emit, set_current]
  · simp only [hr, if_false]
    simp [emit, set_current]

/-- The cascaded enable with valid arguments, both callbacks present and the
primary's enable returning 0: the code returned and the state reached, by the
result of the secondary's enable. -/
theorem request_clock_mux1_enable_eq (env : Env) (s : State) (d : device)
    (macro_id fp fq : Nat)
    (hd : d.parent_compatible = true) (hpd : d.parent_drvdata = true)
    (hm : macro_id < MAX_MACRO)
    (hp : s.bolero_mclk_mux_tbl macro_id MCLK_MUX0 < MAX_MACRO)
    (hq : s.bolero_mclk_mux_tbl macro_id MCLK_MUX1 < MAX_MACRO)
    (hfp : (s.macro_params (s.bolero_mclk_mux_tbl macro_id MCLK_MUX0)).mclk_fn = some fp)
    (hfq : (s.macro_params (s.bolero_mclk_mux_tbl macro_id MCLK_MUX1)).mclk_fn = some fq)
    (h0 : env.mclk_fn s.trace fp
            (s.macro_params (s.bolero_mclk_mux_tbl macro_id MCLK_MUX0)).dev true = 0)
    (h1 : env.mclk_fn
            (s.trace ++ [Event.mclk_fn fp
                (s.macro_params (s.bolero_mclk_mux_tbl macro_id MCLK_MUX0)).dev true]
              ++ (if s.clk_users = 0 then gen_on_writes else []))
            fq (s.macro_params (s.bolero_mclk_mux_tbl macro_id MCLK_MUX1)).dev true = 0) :
    bolero_request_clock env (some d) macro_id MCLK_MUX1 true s =
      some (0,
        { s with
          clk_users := s.clk_users + 1
          current_mclk_mux_macro :=
            upd s.current_mclk_mux_macro macro_id (s.bolero_mclk_mux_tbl macro_id MCLK_MUX1)
          trace :=
            s.trace ++ [Event.mclk_fn fp
                (s.macro_params (s.bolero_mclk_mux_tbl macro_id MCLK_MUX0)).dev true]
              ++ (if s.clk_users = 0 then gen_on_writes else [])
              ++ [Event.mclk_fn fq
                    (s.macro_params (s.bolero_mclk_mux_tbl macro_id MCLK_MUX1)).dev true,
                  Event.mclk_fn fp
                    (s.macro_params (s.bolero_mclk_mux_tbl macro_id MCLK_MUX0)).dev false] }) := by
  have hm' : ¬ (macro_id ≥ MAX_MACRO) := by omega
  unfold bolero_request_clock
  simp only [bolero_is_valid_macro_dev, hd, hpd, hm', mux1_ne_mux0, Bool.not_true, Bool.false_eq_true,
    if_false, decide_False, Bool.or_self, if_true]
  rw [call_mclk_eq env s _ fp true hp hfp, h0]
  simp only [lt_irrefl, false_and, if_false]
  rw [fs_gen_enable_true]
  rw [call_mclk_eq env _ _ fq true hq (by simpa [emit] using hfq)]
  simp only [emit, if_true]
  rw [call_mclk_eq env _ _ fp false hp (by simpa using hfp)]
  simp only [emit, Option.map_some', List.append_assoc, List.singleton_append, List.cons_append,
    List.nil_append] at h1 ⊢
  simp [h1, set_current]

/-- The single-source request with valid arguments and the primary's callback
present: the code returned and the state reached. -/
theorem request_clock_mux0_eq (env : Env) (s : State) (d : device)
    (macro_id fp : Nat) (enable : Bool)
    (hd : d.parent_compatible = true) (hpd : d.parent_drvdata = true)
    (hm : macro_id < MAX_MACRO)
    (hp : s.bolero_mclk_mux_tbl macro_id MCLK_MUX0 < MAX_MACRO)
    (hfp : (s.macro_params (s.bolero_mclk_mux_tbl macro_id MCLK_MUX0)).mclk_fn = some fp) :
    bolero_request_clock env (some d) macro_id MCLK_MUX0 enable s =
      some (env.mclk_fn s.trace fp
              (s.macro_params (s.bolero_mclk_mux_tbl macro_id MCLK_MUX0)).dev enable,
        if env.mclk_fn s.trace fp
              (s.macro_params (s.bolero_mclk_mux_tbl macro_id MCLK_MUX0)).dev enable < 0
        then emit s (Event.mclk_fn fp
              (s.macro_params (s.bolero_mclk_mux_tbl macro_id MCLK_MUX0)).dev enable)
        else set_current
          (bolero_fs_gen_enable
            (emit s (Event.mclk_fn fp
              (s.macro_params (s.bolero_mclk_mux_tbl macro_id MCLK_MUX0)).dev enable)) enable)
          macro_id MCLK_MUX0 enable) := by
  have hm' : ¬ (macro_id ≥ MAX_MACRO) := by omega
  unfold bolero_request_clock
  simp only [bolero_is_valid_macro_dev, hd, hpd, hm', Bool.not_true, Bool.false_eq_true,
    if_false, decide_False, Bool.or_self, if_true]
  rw [call_mclk_eq env s _ fp enable hp hfp]
  simp only []
  split_ifs <;> rfl

/-- The generator writes of one `bolero_fs_gen_enable` step from a counter value. -/
theorem fs_gen_enable_after_emit (s : State) (e : Event) (enable : Bool) :
    (bolero_fs_gen_enable (emit s e) enable).clk_users = (bolero_fs_gen_enable s enable).clk_users ∧
    (bolero_fs_gen_enable (emit s e) enable).trace =
      s.trace ++ [e] ++
        (if enable = true then (if s.clk_users = 0 then gen_on_writes else [])
         else (if s.clk_users = 1 then gen_off_writes else [])) := by
  cases enable
  · simp [fs_gen_enable_false, emit]
  · simp [fs_gen_enable_true, emit]

/-! ### C14 -/

/-- C14 fails on the code: in `demo_state`, with the TX callback (handle 10)
failing, the cascaded disable for RX invokes the primary TX with enable (-5),
drives the generator edge (no write, `clk_users` is 0), invokes the secondary
RX with disable, and returns -5 without ever invoking the primary's callback
with disable. -/
theorem request_clock_mux1_disable_skips_primary :
    demo_state.bolero_mclk_mux_tbl RX_MACRO MCLK_MUX0 = TX_MACRO ∧
    demo_state.bolero_mclk_mux_tbl RX_MACRO MCLK_MUX1 = RX_MACRO ∧
    (bolero_request_clock demo_env_tx_fails (some demo_dev) RX_MACRO MCLK_MUX1 false demo_state).map
        (fun r => (r.1, r.2.trace.drop demo_state.trace.length))
      = some (-5, [Event.mclk_fn 10 (some 100) true, Event.mclk_fn 11 (some 100) false]) := by
  decide

/-- C14, amended: for every cascaded disable with valid arguments and both
callbacks present, whatever the callbacks report, the call invokes the
primary's callback with enable, drives the generator edge (`clk_users` one
`bolero_fs_gen_enable(false)` step, generator-off writes on the edge from 1),
then invokes the secondary's callback with disable; after that the primary's
callback is invoked with disable exactly when its first invocation returned 0.
The call returns the result of the primary's first invocation and makes no
other call. -/
theorem request_clock_mux1_disable_runs (env : Env) (s : State) (d : device)
    (macro_id fp fq : Nat)
    (hd : d.parent_compatible = true) (hpd : d.parent_drvdata = true)
    (hm : macro_id < MAX_MACRO)
    (hp : s.bolero_mclk_mux_tbl macro_id MCLK_MUX0 < MAX_MACRO)
    (hq : s.bolero_mclk_mux_tbl macro_id MCLK_MUX1 < MAX_MACRO)
    (hfp : (s.macro_params (s.bolero_mclk_mux_tbl macro_id MCLK_MUX0)).mclk_fn = some fp)
    (hfq : (s.macro_params (s.bolero_mclk_mux_tbl macro_id MCLK_MUX1)).mclk_fn = some fq) :
    ∃ s', bolero_request_clock env (some d) macro_id MCLK_MUX1 false s =
        some (env.mclk_fn s.trace fp
                (s.macro_params (s.bolero_mclk_mux_tbl macro_id MCLK_MUX0)).dev true, s') ∧
      s'.clk_users = (bolero_fs_gen_enable s false).clk_users ∧
      s'.trace =
        s.trace ++ [Event.mclk_fn fp
              (s.macro_params (s.bolero_mclk_mux_tbl macro_id MCLK_MUX0)).dev true]
          ++ (if s.clk_users = 1 then gen_off_writes else [])
          ++ [Event.mclk_fn fq
                (s.macro_params (s.bolero_mclk_mux_tbl macro_id MCLK_MUX1)).dev false]
          ++ (if env.mclk_fn s.trace fp
                  (s.macro_params (s.bolero_mclk_mux_tbl macro_id MCLK_MUX0)).dev true = 0
              then [Event.mclk_fn fp
                (s.macro_params (s.bolero_mclk_mux_tbl macro_id MCLK_MUX0)).dev false]
              else []) :=
  ⟨_, request_clock_mux1_disable_eq env s d macro_id fp fq hd hpd hm hp hq hfp hfq,
    by rw [fs_gen_enable_false], rfl⟩

/-- Witness for C14 (amended): the cascaded disable for RX in `demo_state`
with the failing TX callback. -/
theorem request_clock_mux1_disable_runs_witness :
    ∃ s', bolero_request_clock demo_env_tx_fails (some demo_dev) RX_MACRO MCLK_MUX1 false demo_state =
        some (demo_env_tx_fails.mclk_fn demo_state.trace 10
                (demo_state.macro_params (demo_state.bolero_mclk_mux_tbl RX_MACRO MCLK_MUX0)).dev
                true, s') ∧
      s'.clk_users = (bolero_fs_gen_enable demo_state false).clk_users ∧
      s'.trace =
        demo_state.trace ++ [Event.mclk_fn 10
              (demo_state.macro_params (demo_state.bolero_mclk_mux_tbl RX_MACRO MCLK_MUX0)).dev true]
          ++ (if demo_state.clk_users = 1 then gen_off_writes else [])
          ++ [Event.mclk_fn 11
                (demo_state.macro_params (demo_state.bolero_mclk_mux_tbl RX_MACRO MCLK_MUX1)).dev
                false]
          ++ (if demo_env_tx_fails.mclk_fn demo_state.trace 10
                  (demo_state.macro_params (demo_state.bolero_mclk_mux_tbl RX_MACRO MCLK_MUX0)).dev
                  true = 0
              then [Event.mclk_fn 10
                (demo_state.macro_params (demo_state.bolero_mclk_mux_tbl RX_MACRO MCLK_MUX0)).dev
                false]
              else []) :=
  request_clock_mux1_disable_runs demo_env_tx_fails demo_state demo_dev RX_MACRO 10 11
    rfl rfl (by decide) (by decide) (by decide) (by decide) (by decide)

/-! ### C15 -/

/-- C15: for every cascaded enable with valid arguments whose primary callback
returns a negative code, `bolero_request_clock` returns that code and the only
call made is the primary's enable: the secondary's callback is not invoked, no
generator register is written, and `clk_users` and `current_mclk_mux_macro`
are unchanged. -/
theorem request_clock_mux1_primary_failure (env : Env) (s : State) (d : device)
    (macro_id fp : Nat)
    (hd : d.parent_compatible = true) (hpd : d.parent_drvdata = true)
    (hm : macro_id < MAX_MACRO)
    (hp : s.bolero_mclk_mux_tbl macro_id MCLK_MUX0 < MAX_MACRO)
    (hfp : (s.macro_params (s.bolero_mclk_mux_tbl macro_id MCLK_MUX0)).mclk_fn = some fp)
    (h0 : env.mclk_fn s.trace fp
            (s.macro_params (s.bolero_mclk_mux_tbl macro_id MCLK_MUX0)).dev true < 0) :
    ∃ s', bolero_request_clock env (some d) macro_id MCLK_MUX1 true s =
        some (env.mclk_fn s.trace fp
                (s.macro_params (s.bolero_mclk_mux_tbl macro_id MCLK_MUX0)).dev true, s') ∧
      s'.trace = s.trace ++ [Event.mclk_fn fp
              (s.macro_params (s.bolero_mclk_mux_tbl macro_id MCLK_MUX0)).dev true] ∧
      s'.clk_users = s.clk_users ∧
      s'.current_mclk_mux_macro = s.current_mclk_mux_macro := by
  have hm' : ¬ (macro_id ≥ MAX_MACRO) := by omega
  refine ⟨emit s (Event.mclk_fn fp
    (s.macro_params (s.bolero_mclk_mux_tbl macro_id MCLK_MUX0)).dev true), ?_, rfl, rfl, rfl⟩
  unfold bolero_request_clock
  simp only [bolero_is_valid_macro_dev, hd, hpd, hm', mux1_ne_mux0, Bool.not_true, Bool.false_eq_true,
    if_false, decide_False, Bool.or_self, if_true]
  rw [call_mclk_eq env s _ fp true hp hfp]
  simp [h0]

/-- Witness for C15: the cascaded enable for RX in `demo_state` with the
failing TX callback. -/
theorem request_clock_mux1_primary_failure_witness :
    ∃ s', bolero_request_clock demo_env_tx_fails (some demo_dev) RX_MACRO MCLK_MUX1 true demo_state =
        some (demo_env_tx_fails.mclk_fn demo_state.trace 10
                (demo_state.macro_params (demo_state.bolero_mclk_mux_tbl RX_MACRO MCLK_MUX0)).dev
                true, s') ∧
      s'.trace = demo_state.trace ++ [Event.mclk_fn 10
              (demo_state.macro_params (demo_state.bolero_mclk_mux_tbl RX_MACRO MCLK_MUX0)).dev
              true] ∧
      s'.clk_users = demo_state.clk_users ∧
      s'.current_mclk_mux_macro = demo_state.current_mclk_mux_macro :=
  request_clock_mux1_primary_failure demo_env_tx_fails demo_state demo_dev RX_MACRO 10
    rfl rfl (by decide) (by decide) (by decide) (by decide)

/-! ### C16 -/

/-- C16: for every single-source request with valid arguments and the primary's
callback present, that callback is invoked exactly once, with the requested
flag.  If it returns a negative code, the call returns exactly that code, makes
no other call, and leaves `clk_users` and `current_mclk_mux_macro` unchanged.
If it returns 0, the call returns 0, `clk_users` is what one
`bolero_fs_gen_enable(enable)` step makes of it, and the only further calls are
the generator writes of that step. -/
theorem request_clock_mux0_single_source (env : Env) (s : State) (d : device)
    (macro_id fp : Nat) (enable : Bool)
    (hd : d.parent_compatible = true) (hpd : d.parent_drvdata = true)
    (hm : macro_id < MAX_MACRO)
    (hp : s.bolero_mclk_mux_tbl macro_id MCLK_MUX0 < MAX_MACRO)
    (hfp : (s.macro_params (s.bolero_mclk_mux_tbl macro_id MCLK_MUX0)).mclk_fn = some fp) :
    (env.mclk_fn s.trace fp
        (s.macro_params (s.bolero_mclk_mux_tbl macro_id MCLK_MUX0)).dev enable < 0 →
      ∃ s', bolero_request_clock env (some d) macro_id MCLK_MUX0 enable s =
          some (env.mclk_fn s.trace fp
                  (s.macro_params (s.bolero_mclk_mux_tbl macro_id MCLK_MUX0)).dev enable, s') ∧
        s'.trace = s.trace ++ [Event.mclk_fn fp
                (s.macro_params (s.bolero_mclk_mux_tbl macro_id MCLK_MUX0)).dev enable] ∧
        s'.clk_users = s.clk_users ∧
        s'.current_mclk_mux_macro = s.current_mclk_mux_macro) ∧
    (env.mclk_fn s.trace fp
        (s.macro_params (s.bolero_mclk_mux_tbl macro_id MCLK_MUX0)).dev enable = 0 →
      ∃ s', bolero_request_clock env (some d) macro_id MCLK_MUX0 enable s = some (0, s') ∧
        s'.trace = s.trace ++ [Event.mclk_fn fp
                (s.macro_params (s.bolero_mclk_mux_tbl macro_id MCLK_MUX0)).dev enable]
          ++ (if enable = true then (if s.clk_users = 0 then gen_on_writes else [])
              else (if s.clk_users = 1 then gen_off_writes else [])) ∧
        s'.clk_users = (bolero_fs_gen_enable s enable).clk_users) := by
  have heq := request_clock_mux0_eq env s d macro_id fp enable hd hpd hm hp hfp
  constructor
  · intro hneg
    rw [if_pos hneg] at heq
    exact ⟨_, heq, rfl, rfl, rfl⟩
  · intro hz
    have hnn : ¬ (env.mclk_fn s.trace fp
        (s.macro_params (s.bolero_mclk_mux_tbl macro_id MCLK_MUX0)).dev enable < 0) := by
      rw [hz]; decide
    rw [if_neg hnn, hz] at heq
    have hfs := fs_gen_enable_after_emit s (Event.mclk_fn fp
        (s.macro_params (s.bolero_mclk_mux_tbl macro_id MCLK_MUX0)).dev enable) enable
    refine ⟨_, heq, ?_, ?_⟩
    · rw [← hfs.2]
      cases enable <;> rfl
    · rw [← hfs.1]
      cases enable <;> rfl

/-- Witness for C16: the single-source enable for RX in `demo_state`, where the
primary TX succeeds under `demo_env` and fails under `demo_env_tx_fails`. -/
theorem request_clock_mux0_single_source_witness :
    (∃ s', bolero_request_clock demo_env_tx_fails (some demo_dev) RX_MACRO MCLK_MUX0 true demo_state
          = some (-5, s') ∧
        s'.trace = demo_state.trace ++ [Event.mclk_fn 10 (some 100) true] ∧
        s'.clk_users = demo_state.clk_users ∧
        s'.current_mclk_mux_macro = demo_state.current_mclk_mux_macro) ∧
    (∃ s', bolero_request_clock demo_env (some demo_dev) RX_MACRO MCLK_MUX0 true demo_state
          = some (0, s') ∧
        s'.trace = demo_state.trace ++ [Event.mclk_fn 10 (some 100) true] ++ gen_on_writes ∧
        s'.clk_users = 1) :=
  ⟨(request_clock_mux0_single_source demo_env_tx_fails demo_state demo_dev RX_MACRO 10 true
      rfl rfl (by decide) (by decide) (by decide)).1 (by decide),
   (request_clock_mux0_single_source demo_env demo_state demo_dev RX_MACRO 10 true
      rfl rfl (by decide) (by decide) (by decide)).2 (by decide)⟩

/-! ### C17 -/

/-- C17: for every request with a valid macro and mux slot in which every
invocation of the callbacks involved returns 0, `bolero_request_clock` returns 0
and afterwards `current_mclk_mux_macro[macro_id]` is the mux-table entry of the
requested slot on enable and the primary entry on disable; the active-source
entries of all other macros are unchanged. -/
theorem request_clock_success_sets_active_source (env : Env) (s : State) (d : device)
    (macro_id mclk_mux_id fp : Nat) (enable : Bool)
    (hd : d.parent_compatible = true) (hpd : d.parent_drvdata = true)
    (hm : macro_id < MAX_MACRO)
    (hmux : mclk_mux_id = MCLK_MUX0 ∨ mclk_mux_id = MCLK_MUX1)
    (hp : s.bolero_mclk_mux_tbl macro_id MCLK_MUX0 < MAX_MACRO)
    (hfp : (s.macro_params (s.bolero_mclk_mux_tbl macro_id MCLK_MUX0)).mclk_fn = some fp)
    (h0 : ∀ t e, env.mclk_fn t fp
            (s.macro_params (s.bolero_mclk_mux_tbl macro_id MCLK_MUX0)).dev e = 0)
    (hq : mclk_mux_id = MCLK_MUX1 →
      s.bolero_mclk_mux_tbl macro_id MCLK_MUX1 < MAX_MACRO ∧
      ∃ fq, (s.macro_params (s.bolero_mclk_mux_tbl macro_id MCLK_MUX1)).mclk_fn = some fq ∧
        ∀ t e, env.mclk_fn t fq
            (s.macro_params (s.bolero_mclk_mux_tbl macro_id MCLK_MUX1)).dev e = 0) :
    ∃ s', bolero_request_clock env (some d) macro_id mclk_mux_id enable s = some (0, s') ∧
      s'.current_mclk_mux_macro macro_id =
        (if enable = true then s.bolero_mclk_mux_tbl macro_id mclk_mux_id
         else s.bolero_mclk_mux_tbl macro_id MCLK_MUX0) ∧
      ∀ m, m ≠ macro_id → s'.current_mclk_mux_macro m = s.current_mclk_mux_macro m := by
  rcases hmux with hmux | hmux
  · subst hmux
    have heq := request_clock_mux0_eq env s d macro_id fp enable hd hpd hm hp hfp
    rw [h0] at heq
    have hnn : ¬ ((0 : Int) < 0) := by decide
    rw [if_neg hnn] at heq
    refine ⟨_, heq, ?_, ?_⟩
    · cases enable <;>
        simp [set_current, upd, fs_gen_enable_true, fs_gen_enable_false, emit]
    · intro m hne
      cases enable <;>
        simp [set_current, upd, hne, fs_gen_enable_true, fs_gen_enable_false, emit]
  · subst hmux
    obtain ⟨hq1, fq, hfq, h1⟩ := hq rfl
    cases enable with
    | true =>
      have heq := request_clock_mux1_enable_eq env s d macro_id fp fq hd hpd hm hp hq1 hfp hfq
        (h0 _ _) (h1 _ _)
      refine ⟨_, heq, ?_, ?_⟩
      · simp [upd]
      · intro m hne
        simp [upd, hne]
    | false =>
      have heq := request_clock_mux1_disable_eq env s d macro_id fp fq hd hpd hm hp hq1 hfp hfq
      rw [h0] at heq
      refine ⟨_, heq, ?_, ?_⟩
      · simp [upd]
      · intro m hne
        simp [upd, hne]

/-- Witness for C17: the cascaded enable for RX in `demo_state` when every
callback succeeds; the active source of RX becomes RX, its secondary entry. -/
theorem request_clock_success_sets_active_source_witness :
    ∃ s', bolero_request_clock demo_env_ok (some demo_dev) RX_MACRO MCLK_MUX1 true demo_state
        = some (0, s') ∧
      s'.current_mclk_mux_macro RX_MACRO =
        (if true = true then demo_state.bolero_mclk_mux_tbl RX_MACRO MCLK_MUX1
         else demo_state.bolero_mclk_mux_tbl RX_MACRO MCLK_MUX0) ∧
      ∀ m, m ≠ RX_MACRO → s'.current_mclk_mux_macro m = demo_state.current_mclk_mux_macro m :=
  request_clock_success_sets_active_source demo_env_ok demo_state demo_dev RX_MACRO MCLK_MUX1 10
    true rfl rfl (by decide) (Or.inr rfl) (by decide) (by decide) (fun _ _ => rfl)
    (fun _ => ⟨by decide, 11, by decide, fun _ _ => rfl⟩)

/-! ### C18 -/

/-- C18: whenever `macro_id` is not below `MAX_MACRO` or `mclk_mux_id` is
neither `MCLK_MUX0` nor `MCLK_MUX1`, `bolero_request_clock` returns `-EINVAL`
and the state, trace included, is exactly as before: no clock callback, no
generator write, `clk_users` and `current_mclk_mux_macro` unchanged. -/
theorem request_clock_invalid_argument (env : Env) (dev : Option device)
    (macro_id mclk_mux_id : Nat) (enable : Bool) (s : State)
    (h : macro_id ≥ MAX_MACRO ∨ (mclk_mux_id ≠ MCLK_MUX0 ∧ mclk_mux_id ≠ MCLK_MUX1)) :
    bolero_request_clock env dev macro_id mclk_mux_id enable s = some (-EINVAL, s) := by
  unfold bolero_request_clock
  cases dev with
  | none => rfl
  | some d =>
    simp only []
    by_cases hv : bolero_is_valid_macro_dev d = true
    swap
    · simp [hv]
    by_cases hg : (!d.parent_drvdata || decide (macro_id ≥ MAX_MACRO)) = true
    · simp [hv, hg]
    rcases h with h | ⟨h0, h1⟩
    · exact absurd (by simp [h]) hg
    · simp [hv, hg, h0, h1]

/-- Witness for C18: an out-of-range macro identity and an out-of-range slot
in `demo_state`. -/
theorem request_clock_invalid_argument_witness :
    bolero_request_clock demo_env (some demo_dev) MAX_MACRO MCLK_MUX0 true demo_state
      = some (-EINVAL, demo_state) ∧
    bolero_request_clock demo_env (some demo_dev) RX_MACRO MCLK_MUX_MAX true demo_state
      = some (-EINVAL, demo_state) :=
  ⟨request_clock_invalid_argument demo_env (some demo_dev) MAX_MACRO MCLK_MUX0 true demo_state
      (Or.inl (by decide)),
   request_clock_invalid_argument demo_env (some demo_dev) RX_MACRO MCLK_MUX_MAX true demo_state
      (Or.inr (by decide))⟩

/-! ### C19 -/

/-- C19: for every state with `clk_users ≤ 0`, `bolero_fs_gen_enable(disable)`
changes nothing but `clk_users`, which it sets to exactly 0; in particular it
writes no register. -/
theorem fs_gen_disable_when_idle (s : State) (h : s.clk_users ≤ 0) :
    bolero_fs_gen_enable s false = { s with clk_users := 0 } ∧
    (bolero_fs_gen_enable s false).clk_users = 0 ∧
    (bolero_fs_gen_enable s false).trace = s.trace := by
  have heq : bolero_fs_gen_enable s false = { s with clk_users := 0 } := by
    simp [bolero_fs_gen_enable, h]
  exact ⟨heq, by rw [heq], by rw [heq]⟩

/-- Witness for C19: a disable in `demo_state`, where `clk_users` is 0. -/
theorem fs_gen_disable_when_idle_witness :
    demo_state.clk_users ≤ 0 ∧
    bolero_fs_gen_enable demo_state false = { demo_state with clk_users := 0 } ∧
    (bolero_fs_gen_enable demo_state false).clk_users = 0 ∧
    (bolero_fs_gen_enable demo_state false).trace = demo_state.trace :=
  ⟨by decide, fs_gen_disable_when_idle demo_state (by decide)⟩

/-! ### Macro registry: further auxiliary facts -/

theorem register_full_nomem (env : Env) (a : attach_call) (s : State)
    (hv : attach_valid a = true)
    (hn : s.num_macros_registered + 1 = s.num_macros)
    (hb : s.bolero_dais = none)
    (ha : env.devm_kzalloc s.trace (attach_stored a s).num_dais.toNat = false) :
    bolero_register_macro env (some a.dev) a.macro_id (some a.ops) s =
      (-ENOMEM, emit (attach_stored a s) (Event.devm_kzalloc (attach_stored a s).num_dais.toNat)) := by
  obtain ⟨h1, h2, h3, _⟩ := (attach_valid_iff a).1 hv
  have h3' : ¬ (a.macro_id ≥ MAX_MACRO) := by omega
  have ha' : env.devm_kzalloc s.trace (s.num_dais + (a.ops.num_dais : Int)).toNat = false := ha
  unfold bolero_register_macro
  simp only [bolero_is_valid_macro_dev, h1, h2, h3', hn, Bool.not_true, Bool.false_eq_true,
    if_false, decide_False, Bool.or_self, if_true]
  unfold bolero_copy_dais_from_macro
  simp only [hb, ha', emit]
  have hneg : (-ENOMEM : Int) < 0 := by decide
  simp [hneg, attach_stored, ← hn, hb]

theorem ascending_concat_pair (a b : attach_call)
    (ha : a.macro_id < MAX_MACRO) (hb : b.macro_id < MAX_MACRO)
    (hne : a.macro_id ≠ b.macro_id) :
    ascending_concat [b, a] =
      if b.macro_id < a.macro_id then ops_dais b.ops ++ ops_dais a.ops
      else ops_dais a.ops ++ ops_dais b.ops := by
  have ha4 : a.macro_id < 4 := ha
  have hb4 : b.macro_id < 4 := hb
  generalize hi : a.macro_id = i at *
  generalize hj : b.macro_id = j at *
  interval_cases i <;> interval_cases j <;>
    first
    | exact absurd rfl hne
    | simp [ascending_concat, macro_indices_eq, attached_dais, List.find?, hi, hj]

/-! ### C12 -/

/-- C12 fails on the code: with one macro expected and the allocator failing,
attaching TX from the probe state returns `-ENOMEM`, yet the registry is not in
its pre-attach state: TX's clock callback and descriptor list are stored, the
attached count is 1, the descriptor total is 1 and TX is marked supported. -/
theorem register_nomem_keeps_stores :
    (probe_state 7 1).num_macros_registered = 0 ∧
    (probe_state 7 1).num_dais = 0 ∧
    (probe_state 7 1).macros_supported TX_MACRO = false ∧
    ((probe_state 7 1).macro_params TX_MACRO).mclk_fn = none ∧
    ( bolero_register_macro demo_env_nomem (some demo_dev) TX_MACRO (some (demo_ops 10 [5]))
        (probe_state 7 1)).1 = -ENOMEM ∧
    ( bolero_register_macro demo_env_nomem (some demo_dev) TX_MACRO (some (demo_ops 10 [5]))
        (probe_state 7 1)).2.num_macros_registered = 1 ∧
    ( bolero_register_macro demo_env_nomem (some demo_dev) TX_MACRO (some (demo_ops 10 [5]))
        (probe_state 7 1)).2.num_dais = 1 ∧
    ( bolero_register_macro demo_env_nomem (some demo_dev) TX_MACRO (some (demo_ops 10 [5]))
        (probe_state 7 1)).2.macros_supported TX_MACRO = true ∧
    (( bolero_register_macro demo_env_nomem (some demo_dev) TX_MACRO (some (demo_ops 10 [5]))
        (probe_state 7 1)).2.macro_params TX_MACRO).mclk_fn = some 10 ∧
    (( bolero_register_macro demo_env_nomem (some demo_dev) TX_MACRO (some (demo_ops 10 [5]))
        (probe_state 7 1)).2.macro_params TX_MACRO).dai_ptr = some [⟨5⟩] := by
  decide

/-- C12, amended: when the attach that reaches the expected count fails
because the allocation of the aggregated descriptor list fails,
`bolero_register_macro` returns `-ENOMEM` and keeps what it stored before the
count test: the macro's callbacks and descriptor list are stored, the attached
count is one more and the descriptor total is larger by the macro's count than
before the call, and the macro is marked supported.  No buffer exists, the mux
table is untouched, and the only outgoing call is the failed allocation: no
external registration is made. -/
theorem register_nomem_returns_enomem (env : Env) (a : attach_call) (s : State)
    (hv : attach_valid a = true)
    (hn : s.num_macros_registered + 1 = s.num_macros)
    (hb : s.bolero_dais = none)
    (ha : env.devm_kzalloc s.trace (s.num_dais + a.ops.num_dais).toNat = false) :
    ( bolero_register_macro env (some a.dev) a.macro_id (some a.ops) s).1 = -ENOMEM ∧
    ( bolero_register_macro env (some a.dev) a.macro_id (some a.ops) s).2.macro_params a.macro_id =
      store_ops (s.macro_params a.macro_id) a.ops a.macro_id a.dev ∧
    ( bolero_register_macro env (some a.dev) a.macro_id (some a.ops) s).2.num_macros_registered =
      s.num_macros_registered + 1 ∧
    ( bolero_register_macro env (some a.dev) a.macro_id (some a.ops) s).2.num_dais =
      s.num_dais + a.ops.num_dais ∧
    ( bolero_register_macro env (some a.dev) a.macro_id (some a.ops) s).2.macros_supported a.macro_id =
      true ∧
    ( bolero_register_macro env (some a.dev) a.macro_id (some a.ops) s).2.bolero_dais = none ∧
    ( bolero_register_macro env (some a.dev) a.macro_id (some a.ops) s).2.bolero_mclk_mux_tbl =
      s.bolero_mclk_mux_tbl ∧
    ( bolero_register_macro env (some a.dev) a.macro_id (some a.ops) s).2.trace =
      s.trace ++ [Event.devm_kzalloc (s.num_dais + a.ops.num_dais).toNat] := by
  rw [register_full_nomem env a s hv hn hb ha]
  refine ⟨rfl, ?_, rfl, rfl, ?_, hb, rfl, rfl⟩
  · simp [emit, attach_stored, upd]
  · simp [emit, attach_stored, upd]

/-- Witness for C12 (amended): TX attaches as the only expected macro while the
allocator fails. -/
theorem register_nomem_returns_enomem_witness :
    ( bolero_register_macro demo_env_nomem (some demo_attach_tx.dev) demo_attach_tx.macro_id
        (some demo_attach_tx.ops) (probe_state 7 1)).1 = -ENOMEM ∧
    ( bolero_register_macro demo_env_nomem (some demo_attach_tx.dev) demo_attach_tx.macro_id
        (some demo_attach_tx.ops) (probe_state 7 1)).2.num_macros_registered =
      (probe_state 7 1).num_macros_registered + 1 :=
  ⟨(register_nomem_returns_enomem demo_env_nomem demo_attach_tx (probe_state 7 1)
      (by decide) (by decide) rfl rfl).1,
   (register_nomem_returns_enomem demo_env_nomem demo_attach_tx (probe_state 7 1)
      (by decide) (by decide) rfl rfl).2.2.1⟩

/-! ### C20 -/

/-- C20 fails on the code: in the scenario of `demo_state`, B = RX (descriptors
7, 8) attaches first and A = TX (descriptor 5) second with two macros expected.
Nothing is published on B's attach, and A's attach publishes 5, 7, 8: A's
descriptor followed by B's, not B's followed by A's (7, 8, 5). -/
theorem attach_b_then_a_publishes_ascending :
    (attach_all demo_env [demo_attach_rx] (probe_state 7 2)).trace = [] ∧
    (attach_all demo_env [demo_attach_rx, demo_attach_tx] (probe_state 7 2)).trace =
      [Event.devm_kzalloc 3, Event.snd_soc_register_component [⟨5⟩, ⟨7⟩, ⟨8⟩] 3] ∧
    ops_dais demo_attach_rx.ops ++ ops_dais demo_attach_tx.ops = [⟨7⟩, ⟨8⟩, ⟨5⟩] ∧
    ops_dais demo_attach_tx.ops ++ ops_dais demo_attach_rx.ops = [⟨5⟩, ⟨7⟩, ⟨8⟩] := by
  decide

/-- C20, amended: for every pair of attach calls `a`, `b` of distinct macros
with valid arguments and well-formed bundles, and an expected count of 2,
attaching `b` and then `a` from the probe state publishes nothing on `b`'s
attach and publishes on `a`'s attach the descriptors of the macro with the
lower identity followed by those of the macro with the higher identity: `b`'s
followed by `a`'s when `b`'s identity is the lower one, `a`'s followed by `b`'s
otherwise. -/
theorem attach_pair_publishes_by_identity (env : Env) (pdev : Nat) (a b : attach_call)
    (hva : attach_valid a = true) (hvb : attach_valid b = true)
    (hne : a.macro_id ≠ b.macro_id)
    (halloc : ∀ t n, env.devm_kzalloc t n = true) :
    (attach_all env [b] (probe_state pdev 2)).trace = [] ∧
    (attach_all env [b, a] (probe_state pdev 2)).trace =
      [Event.devm_kzalloc
          (if b.macro_id < a.macro_id then ops_dais b.ops ++ ops_dais a.ops
           else ops_dais a.ops ++ ops_dais b.ops).length,
       Event.snd_soc_register_component
          (if b.macro_id < a.macro_id then ops_dais b.ops ++ ops_dais a.ops
           else ops_dais a.ops ++ ops_dais b.ops)
          (if b.macro_id < a.macro_id then ops_dais b.ops ++ ops_dais a.ops
           else ops_dais a.ops ++ ops_dais b.ops).length] := by
  have ha := ((attach_valid_iff a).1 hva).2.2.1
  have hb := ((attach_valid_iff b).1 hvb).2.2.1
  constructor
  · have hnot : (probe_state pdev 2).num_macros_registered + 1 ≠ (probe_state pdev 2).num_macros := by
      simp [probe_state]
    simp only [attach_all]
    rw [register_not_full env b _ hvb hnot]
    rfl
  · have hbuild := attach_all_builds env 2 [b, a] [] (probe_state pdev 2)
      (probe_state_inv pdev 2) (List.cons_ne_nil _ _)
      (by
        intro c hc
        rcases List.mem_cons.1 hc with h | h
        · rw [h]; exact hvb
        · rw [List.mem_singleton.1 h]; exact hva)
      (by simp [Ne.symm hne])
      (by simp)
      halloc
    simp only [List.nil_append] at hbuild
    rw [hbuild.2, ascending_concat_pair a b ha hb hne]

/-- Witness for C20 (amended): RX then TX with two macros expected. -/
theorem attach_pair_publishes_by_identity_witness :
    (attach_all demo_env [demo_attach_rx] (probe_state 7 2)).trace = [] ∧
    (attach_all demo_env [demo_attach_rx, demo_attach_tx] (probe_state 7 2)).trace =
      [Event.devm_kzalloc 3, Event.snd_soc_register_component [⟨5⟩, ⟨7⟩, ⟨8⟩] 3] :=
  attach_pair_publishes_by_identity demo_env 7 demo_attach_tx demo_attach_rx
    (by decide) (by decide) (by decide) (fun _ _ => rfl)

/-! ### Macro registry: the mux-table patch -/

theorem register_full_mux (env : Env) (a : attach_call) (s : State)
    (hv : attach_valid a = true)
    (hn : s.num_macros_registered + 1 = s.num_macros)
    (hb : s.bolero_dais = none)
    (ha : env.devm_kzalloc s.trace (attach_stored a s).num_dais.toNat = true)
    (hsup : (attach_stored a s).macros_supported TX_MACRO = false) :
    ( bolero_register_macro env (some a.dev) a.macro_id (some a.ops) s).2.bolero_mclk_mux_tbl =
        upd2 (upd2 s.bolero_mclk_mux_tbl WSA_MACRO MCLK_MUX0 WSA_MACRO) VA_MACRO MCLK_MUX0 VA_MACRO ∧
    State.current_mclk_mux_macro
        ( bolero_register_macro env (some a.dev) a.macro_id (some a.ops) s).2 =
      upd (upd ( State.current_mclk_mux_macro (attach_stored a s)) WSA_MACRO WSA_MACRO)
        VA_MACRO VA_MACRO := by
  obtain ⟨h1, h2, h3, _⟩ := (attach_valid_iff a).1 hv
  have h3' : ¬ (a.macro_id ≥ MAX_MACRO) := by omega
  have ha' : env.devm_kzalloc s.trace (s.num_dais + (a.ops.num_dais : Int)).toNat = true := ha
  have hsup' : upd s.macros_supported a.macro_id true TX_MACRO = false := hsup
  unfold bolero_register_macro
  simp only [bolero_is_valid_macro_dev, h1, h2, h3', hn, Bool.not_true, Bool.false_eq_true,
    if_false, decide_False, Bool.or_self, if_true]
  unfold bolero_copy_dais_from_macro
  simp only [hb, ha', if_true, emit]
  have hneg : ¬ ((0 : Int) < 0) := by decide
  simp only [hneg, if_false, hsup', if_true]
  by_cases hr : env.snd_soc_register_component
      (s.trace ++ [Event.devm_kzalloc (s.num_dais + (a.ops.num_dais : Int)).toNat]) < 0
  · simp [hr, attach_stored]
  · simp [hr, attach_stored]

theorem attach_all_patches (env : Env) (N : Int) (rest done : List attach_call) (s : State)
    (hinv : registry_inv N done s) (hsup : s.macros_supported TX_MACRO = false)
    (hne : rest ≠ [])
    (hv : ∀ a ∈ rest, attach_valid a = true)
    (htx : ∀ a ∈ rest, a.macro_id ≠ TX_MACRO)
    (hnd : ((done ++ rest).map attach_call.macro_id).Nodup)
    (hN : (done.length : Int) + rest.length = N)
    (halloc : ∀ t n, env.devm_kzalloc t n = true) :
    (attach_all env rest s).bolero_mclk_mux_tbl WSA_MACRO MCLK_MUX0 = WSA_MACRO ∧
    State.current_mclk_mux_macro (attach_all env rest s) WSA_MACRO = WSA_MACRO ∧
    (attach_all env rest s).bolero_mclk_mux_tbl VA_MACRO MCLK_MUX0 = VA_MACRO ∧
    State.current_mclk_mux_macro (attach_all env rest s) VA_MACRO = VA_MACRO := by
  induction rest generalizing done s with
  | nil => exact absurd rfl hne
  | cons a rest ih =>
    have hva := hv a (by simp)
    have hatx := htx a (by simp)
    have hsup' : (attach_stored a s).macros_supported TX_MACRO = false := by
      simp [attach_stored, upd, Ne.symm hatx, hsup]
    have hnew : ∀ b ∈ done, b.macro_id ≠ a.macro_id := by
      intro b hb heq
      rw [List.map_append, List.nodup_append] at hnd
      exact hnd.2.2 (List.mem_map_of_mem _ hb) (by rw [heq]; simp)
    have hinv' := registry_inv_step N done s a hinv hva hnew
    have happ : done ++ a :: rest = (done ++ [a]) ++ rest := by simp
    cases rest with
    | nil =>
      have hfull : s.num_macros_registered + 1 = s.num_macros := by
        rw [hinv.count, hinv.nm, ← hN]; simp
      obtain ⟨ht, hc⟩ := register_full_mux env a s hva hfull hinv.buf (halloc _ _) hsup'
      simp only [attach_all]
      rw [ht, hc]
      simp [upd, upd2, WSA_MACRO, VA_MACRO, MCLK_MUX0]
    | cons b rest =>
      have hnot : s.num_macros_registered + 1 ≠ s.num_macros := by
        rw [hinv.count, hinv.nm, ← hN]
        simp only [List.length_cons, Nat.cast_add, Nat.cast_one]
        omega
      simp only [attach_all]
      rw [register_not_full env a s hva hnot]
      apply ih (done ++ [a]) (attach_stored a s) hinv' hsup' (by simp)
      · intro c hc
        exact hv c (List.mem_cons_of_mem _ hc)
      · intro c hc
        exact htx c (List.mem_cons_of_mem _ hc)
      · rw [← happ]; exact hnd
      · rw [← hN]
        simp only [List.length_append, List.length_cons, List.length_nil, Nat.cast_add,
          Nat.cast_one]
        omega

/-! ### C11 -/

/-- C11 fails on the code: with one macro expected, RX attaches alone from the
probe state, so TX is absent and RX's primary entry names TX.  After the final
attach the entry still names TX and RX's active source is TX, whose clock
callback is absent: RX does not self-source. -/
theorem absent_tx_leaves_rx_on_tx :
    (attach_all demo_env [demo_attach_rx] (probe_state 7 1)).num_macros_registered = 1 ∧
    (attach_all demo_env [demo_attach_rx] (probe_state 7 1)).macros_supported TX_MACRO = false ∧
    (attach_all demo_env [demo_attach_rx] (probe_state 7 1)).bolero_mclk_mux_tbl RX_MACRO MCLK_MUX0
      = TX_MACRO ∧
    State.current_mclk_mux_macro (attach_all demo_env [demo_attach_rx] (probe_state 7 1)) RX_MACRO
      = TX_MACRO ∧
    TX_MACRO ≠ RX_MACRO ∧
    ((attach_all demo_env [demo_attach_rx] (probe_state 7 1)).macro_params TX_MACRO).mclk_fn
      = none := by
  decide

/-- C11, amended: let the expected number of macros attach from the probe
state, each call valid, the macros distinct and TX not among them, with the
allocation succeeding.  After the final attach every attached macro that is
WSA or VA self-sources: its primary mux-table entry and its
`current_mclk_mux_macro` entry both equal its own identity, so its primary
source is an attached macro. -/
theorem absent_tx_wsa_va_self_source (env : Env) (pdev : Nat) (calls : List attach_call)
    (hne : calls ≠ [])
    (hv : ∀ a ∈ calls, attach_valid a = true)
    (htx : ∀ a ∈ calls, a.macro_id ≠ TX_MACRO)
    (hnd : (calls.map attach_call.macro_id).Nodup)
    (halloc : ∀ t n, env.devm_kzalloc t n = true) :
    ∀ a ∈ calls, a.macro_id = WSA_MACRO ∨ a.macro_id = VA_MACRO →
      (attach_all env calls (probe_state pdev calls.length)).bolero_mclk_mux_tbl a.macro_id MCLK_MUX0
        = a.macro_id ∧
      State.current_mclk_mux_macro (attach_all env calls (probe_state pdev calls.length)) a.macro_id
        = a.macro_id := by
  have h := attach_all_patches env calls.length calls [] (probe_state pdev calls.length)
    (probe_state_inv pdev calls.length) rfl hne hv htx (by simpa using hnd) (by simp) halloc
  intro a _ hm
  rcases hm with hm | hm
  · rw [hm]; exact ⟨h.1, h.2.1⟩
  · rw [hm]; exact ⟨h.2.2.1, h.2.2.2⟩

/-- Witness for C11 (amended): VA and WSA attach, two macros expected, TX absent. -/
theorem absent_tx_wsa_va_self_source_witness :
    (attach_all demo_env [demo_attach_va, demo_attach_wsa]
        (probe_state 7 [demo_attach_va, demo_attach_wsa].length)).bolero_mclk_mux_tbl
        demo_attach_wsa.macro_id MCLK_MUX0
      = demo_attach_wsa.macro_id ∧
    State.current_mclk_mux_macro
        (attach_all demo_env [demo_attach_va, demo_attach_wsa]
          (probe_state 7 [demo_attach_va, demo_attach_wsa].length))
        demo_attach_wsa.macro_id
      = demo_attach_wsa.macro_id :=
  absent_tx_wsa_va_self_source demo_env 7 [demo_attach_va, demo_attach_wsa]
    (List.cons_ne_nil _ _) (by decide) (by decide) (by decide) (fun _ _ => rfl)
    demo_attach_wsa (List.Mem.tail _ (List.Mem.head _)) (Or.inl rfl)

/-! ### Macro registry: publication -/

theorem registration_calls_append (t u : List Event) :
    registration_calls (t ++ u) = registration_calls t ++ registration_calls u := by
  induction t with
  | nil => rfl
  | cons e t ih =>
    cases e <;> simp [registration_calls, ih]

theorem published_append_nil (t u : List Event) (h : registration_calls u = []) :
    published (t ++ u) = published t := by
  simp [published, registration_calls_append, h]

theorem published_append_single (t u : List Event) (b : Bool)
    (h : registration_calls u = [b]) :
    published (t ++ u) = b := by
  simp [published, registration_calls_append, h]

theorem register_step_calls (env : Env) (a : attach_call) (s : State)
    (h1 : a.dev.parent_compatible = true) (h2 : a.dev.parent_drvdata = true)
    (h3 : a.macro_id < MAX_MACRO)
    (halloc : ∀ t n, env.devm_kzalloc t n = true) :
    ( bolero_register_macro env (some a.dev) a.macro_id (some a.ops) s).2.num_macros_registered =
      s.num_macros_registered + 1 ∧
    ( bolero_register_macro env (some a.dev) a.macro_id (some a.ops) s).2.num_macros =
      s.num_macros ∧
    ∃ evs,
      ( bolero_register_macro env (some a.dev) a.macro_id (some a.ops) s).2.trace = s.trace ++ evs ∧
      registration_calls evs =
        if s.num_macros_registered + 1 = s.num_macros then [true] else [] := by
  have h3' : ¬ (a.macro_id ≥ MAX_MACRO) := by omega
  have hneg : ¬ ((0 : Int) < 0) := by decide
  unfold bolero_register_macro
  simp only [bolero_is_valid_macro_dev, h1, h2, h3', Bool.not_true, Bool.false_eq_true,
    if_false, decide_False, Bool.or_self]
  by_cases hn : s.num_macros_registered + 1 = s.num_macros
  · simp only [hn, if_true]
    unfold bolero_copy_dais_from_macro
    cases hb : s.bolero_dais with
    | none =>
      simp only [halloc, if_true, emit, hneg, if_false]
      refine ⟨?_, ?_, ?_⟩
      · split_ifs <;> rfl
      · split_ifs <;> simp [hn]
      · split_ifs <;>
          exact ⟨_, by simp only [List.append_assoc]; rfl, by simp [registration_calls]⟩
    | some buf =>
      simp only [emit, hneg, if_false]
      refine ⟨?_, ?_, ?_⟩
      · split_ifs <;> rfl
      · split_ifs <;> simp [hn]
      · split_ifs <;> exact ⟨_, rfl, by simp [registration_calls]⟩
  · exact ⟨by simp [hn], by simp [hn], [], by simp [hn], by simp [hn, registration_calls]⟩

theorem unregister_step_calls (d : device) (m : Nat) (s : State)
    (h1 : d.parent_compatible = true) (h2 : d.parent_drvdata = true) (h3 : m < MAX_MACRO) :
    ( bolero_unregister_macro (some d) m s).num_macros_registered = s.num_macros_registered - 1 ∧
    ( bolero_unregister_macro (some d) m s).num_macros = s.num_macros ∧
    ( bolero_unregister_macro (some d) m s).trace =
      s.trace ++
        (if s.num_macros - 1 = s.num_macros_registered - 1
          then [Event.snd_soc_unregister_component] else []) := by
  have h3' : ¬ (m ≥ MAX_MACRO) := by omega
  unfold bolero_unregister_macro
  simp only [bolero_is_valid_macro_dev, h1, h2, h3', Bool.not_true, Bool.false_eq_true,
    if_false, decide_False, Bool.or_self]
  by_cases hn : s.num_macros - 1 = s.num_macros_registered - 1
  · simp [hn, emit]
  · simp [hn]

theorem publish_inv_probe (pdev N : Nat) (hN : 1 ≤ N) : publish_inv N [] (probe_state pdev N) where
  nm := rfl
  count := rfl
  pub := by
    have : ¬ (N ≤ 0) := by omega
    simp [probe_state, published, registration_calls, this]

theorem publish_inv_attach (env : Env) (N : Nat) (att : List Nat) (a : attach_call) (s : State)
    (hinv : publish_inv N att s)
    (h1 : a.dev.parent_compatible = true) (h2 : a.dev.parent_drvdata = true)
    (h3 : a.macro_id < MAX_MACRO)
    (halloc : ∀ t n, env.devm_kzalloc t n = true) :
    publish_inv N (a.macro_id :: att) (registry_step env (registry_op.attach a) s) := by
  obtain ⟨hc, hm, evs, ht, hr⟩ := register_step_calls env a s h1 h2 h3 halloc
  refine ⟨?_, ?_, ?_⟩
  · simp only [registry_step]; rw [hm, hinv.nm]
  · simp only [registry_step]; rw [hc, hinv.count]; simp
  · simp only [registry_step]
    rw [ht]
    rw [hinv.count, hinv.nm] at hr
    by_cases hfull : (att.length : Int) + 1 = N
    · rw [if_pos hfull] at hr
      rw [published_append_single _ _ _ hr]
      have : N ≤ att.length + 1 := by omega
      simp [this]
    · rw [if_neg hfull] at hr
      rw [published_append_nil _ _ hr, hinv.pub]
      simp only [List.length_cons, decide_eq_decide]
      omega

theorem publish_inv_detach (env : Env) (N : Nat) (att : List Nat) (d : device) (m : Nat)
    (s : State) (hinv : publish_inv N att s)
    (h1 : d.parent_compatible = true) (h2 : d.parent_drvdata = true)
    (h3 : m < MAX_MACRO) (hmem : m ∈ att) :
    publish_inv N (att.erase m) (registry_step env (registry_op.detach d m) s) := by
  obtain ⟨hc, hm, ht⟩ := unregister_step_calls d m s h1 h2 h3
  have hlen : (att.erase m).length = att.length - 1 := List.length_erase_of_mem hmem
  have hpos : 1 ≤ att.length := List.length_pos_of_mem hmem
  refine ⟨?_, ?_, ?_⟩
  · simp only [registry_step]; rw [hm, hinv.nm]
  · simp only [registry_step]; rw [hc, hinv.count, hlen]; omega
  · simp only [registry_step]
    rw [ht, hinv.count, hinv.nm, hlen]
    by_cases hfull : (N : Int) - 1 = (att.length : Int) - 1
    · rw [if_pos hfull]
      rw [published_append_single _ _ false (by simp [registration_calls])]
      have : ¬ (N ≤ att.length - 1) := by omega
      simp [this]
    · rw [if_neg hfull]
      rw [List.append_nil, hinv.pub]
      simp only [decide_eq_decide]
      omega

theorem ops_admissible_append (att : List Nat) (pre : List registry_op) (op : registry_op)
    (h : ops_admissible att (pre ++ [op]) = true) :
    ops_admissible att pre = true ∧ ops_admissible (attached_after att pre) [op] = true := by
  induction pre generalizing att with
  | nil => exact ⟨rfl, h⟩
  | cons o rest ih =>
    cases o with
    | attach a =>
      simp only [List.cons_append, ops_admissible, Bool.and_eq_true] at h
      obtain ⟨hh, hrest⟩ := h
      have := ih _ hrest
      simp only [ops_admissible, attached_after, Bool.and_eq_true]
      exact ⟨⟨hh, this.1⟩, this.2⟩
    | detach d m =>
      simp only [List.cons_append, ops_admissible, Bool.and_eq_true] at h
      obtain ⟨hh, hrest⟩ := h
      have := ih _ hrest
      simp only [ops_admissible, attached_after, Bool.and_eq_true]
      exact ⟨⟨hh, this.1⟩, this.2⟩

theorem publish_inv_run (env : Env) (N : Nat) (ops : List registry_op) (att : List Nat)
    (s : State) (hinv : publish_inv N att s)
    (hadm : ops_admissible att ops = true)
    (halloc : ∀ t n, env.devm_kzalloc t n = true) :
    publish_inv N (attached_after att ops) (registry_run env ops s) := by
  induction ops generalizing att s with
  | nil => exact hinv
  | cons o rest ih =>
    cases o with
    | attach a =>
      simp only [ops_admissible, Bool.and_eq_true, decide_eq_true_eq] at hadm
      obtain ⟨⟨⟨⟨h1, h2⟩, h3⟩, _⟩, hrest⟩ := hadm
      simp only [registry_run, attached_after]
      exact ih _ _ (publish_inv_attach env N att a s hinv h1 h2 h3 halloc) hrest
    | detach d m =>
      simp only [ops_admissible, Bool.and_eq_true, decide_eq_true_eq] at hadm
      obtain ⟨⟨⟨⟨h1, h2⟩, h3⟩, hmem⟩, hrest⟩ := hadm
      simp only [registry_run, attached_after]
      exact ih _ _ (publish_inv_detach env N att d m s hinv h1 h2 h3 hmem) hrest

theorem registry_run_append (env : Env) (pre : List registry_op) (op : registry_op) (s : State) :
    registry_run env (pre ++ [op]) s = registry_step env op (registry_run env pre s) := by
  induction pre generalizing s with
  | nil => rfl
  | cons o rest ih => exact ih _

/-! ### C13 -/

/-- C13: let the expected count `N` be at least 1 and run, from the probe
state, any sequence of attach and detach calls with valid arguments in which
every attach targets a detached macro and every detach an attached one, the
allocation of the descriptor buffer succeeding.  Before and after every call
`op` of the sequence the attached count equals the number of attached macros
and the composite registration is published exactly when that number is at
least `N`.  An attach makes the external register call exactly when it raises
the count to `N`, a detach makes the external unregister call exactly when it
lowers the count to `N - 1`, and no call makes any other external registration
call. -/
theorem registration_follows_count (env : Env) (pdev N : Nat) (pre : List registry_op)
    (op : registry_op) (hN : 1 ≤ N)
    (hadm : ops_admissible [] (pre ++ [op]) = true)
    (halloc : ∀ t n, env.devm_kzalloc t n = true) :
    (registry_run env pre (probe_state pdev N)).num_macros_registered =
      (attached_after [] pre).length ∧
    (published (registry_run env pre (probe_state pdev N)).trace = true ↔
      N ≤ (attached_after [] pre).length) ∧
    (published (registry_step env op (registry_run env pre (probe_state pdev N))).trace = true ↔
      N ≤ (attached_after [] (pre ++ [op])).length) ∧
    registration_calls
        ((registry_step env op (registry_run env pre (probe_state pdev N))).trace.drop
          (registry_run env pre (probe_state pdev N)).trace.length) =
      (match op with
        | registry_op.attach _ => if (attached_after [] pre).length + 1 = N then [true] else []
        | registry_op.detach _ _ => if (attached_after [] pre).length = N then [false] else []) := by
  obtain ⟨hpre, hop⟩ := ops_admissible_append [] pre op hadm
  have hinv := publish_inv_run env N pre [] (probe_state pdev N) (publish_inv_probe pdev N hN)
    hpre halloc
  have hafter := publish_inv_run env N (pre ++ [op]) [] (probe_state pdev N)
    (publish_inv_probe pdev N hN) hadm halloc
  rw [registry_run_append] at hafter
  refine ⟨hinv.count, ?_, ?_, ?_⟩
  · rw [hinv.pub]; simp
  · rw [hafter.pub]; simp
  · cases op with
    | attach a =>
      simp only [ops_admissible, Bool.and_eq_true, decide_eq_true_eq] at hop
      obtain ⟨⟨⟨⟨h1, h2⟩, h3⟩, _⟩, _⟩ := hop
      obtain ⟨_, _, evs, ht, hr⟩ := register_step_calls env a
        (registry_run env pre (probe_state pdev N)) h1 h2 h3 halloc
      simp only [registry_step]
      rw [ht, List.drop_left, hr, hinv.count, hinv.nm]
      by_cases hfull : (attached_after [] pre).length + 1 = N
      · have : (((attached_after [] pre).length : Int) + 1 = N) := by omega
        simp [hfull, this]
      · have : ¬ (((attached_after [] pre).length : Int) + 1 = N) := by omega
        simp [hfull, this]
    | detach d m =>
      simp only [ops_admissible, Bool.and_eq_true, decide_eq_true_eq] at hop
      obtain ⟨⟨⟨⟨h1, h2⟩, h3⟩, hmem⟩, _⟩ := hop
      have hpos : 1 ≤ (attached_after [] pre).length := List.length_pos_of_mem hmem
      obtain ⟨_, _, ht⟩ := unregister_step_calls d m
        (registry_run env pre (probe_state pdev N)) h1 h2 h3
      simp only [registry_step]
      rw [ht, List.drop_left, hinv.count, hinv.nm]
      by_cases hfull : (attached_after [] pre).length = N
      · have : ((N : Int) - 1 = ((attached_after [] pre).length : Int) - 1) := by omega
        simp [hfull, this, registration_calls]
      · have : ¬ ((N : Int) - 1 = ((attached_after [] pre).length : Int) - 1) := by omega
        simp [hfull, this, registration_calls]

/-- Witness for C13: two macros expected; RX and TX attach, TX detaches, and
the call under inspection attaches TX again, raising the count to 2. -/
theorem registration_follows_count_witness :
    (registry_run demo_env
        [registry_op.attach demo_attach_rx, registry_op.attach demo_attach_tx,
         registry_op.detach demo_dev TX_MACRO] (probe_state 7 2)).num_macros_registered =
      (attached_after []
        [registry_op.attach demo_attach_rx, registry_op.attach demo_attach_tx,
         registry_op.detach demo_dev TX_MACRO]).length ∧
    registration_calls
        ((registry_step demo_env (registry_op.attach demo_attach_tx)
            (registry_run demo_env
              [registry_op.attach demo_attach_rx, registry_op.attach demo_attach_tx,
               registry_op.detach demo_dev TX_MACRO] (probe_state 7 2))).trace.drop
          (registry_run demo_env
              [registry_op.attach demo_attach_rx, registry_op.attach demo_attach_tx,
               registry_op.detach demo_dev TX_MACRO] (probe_state 7 2)).trace.length) =
      [true] :=
  ⟨(registration_follows_count demo_env 7 2
      [registry_op.attach demo_attach_rx, registry_op.attach demo_attach_tx,
       registry_op.detach demo_dev TX_MACRO]
      (registry_op.attach demo_attach_tx) (by decide) (by decide) (fun _ _ => rfl)).1,
   (registration_follows_count demo_env 7 2
      [registry_op.attach demo_attach_rx, registry_op.attach demo_attach_tx,
       registry_op.detach demo_dev TX_MACRO]
      (registry_op.attach demo_attach_tx) (by decide) (by decide) (fun _ _ => rfl)).2.2.2⟩

/-! ### Register port: auxiliary facts -/

theorem emit_trace (s : State) (e : Event) : (emit s e).trace = s.trace ++ [e] := rfl

theorem emit_macro_params (s : State) (e : Event) : (emit s e).macro_params = s.macro_params := rfl

theorem emit_current (s : State) (e : Event) :
    State.current_mclk_mux_macro (emit s e) = s.current_mclk_mux_macro := rfl

/-! ### C21 -/

/-- C21: for every register read and write issued while `dev_up` is true, for
a macro whose active source has a clock callback whose enable returns 0, the
call returns 0 and the state changes only in its trace, which gains, in order:
the runtime-PM get, the enable of the active source's clock, one bus access at
the macro's register base and the given address, the disable of the same
source's clock, and the two runtime-PM release calls.  `clk_users` and
`current_mclk_mux_macro` are unchanged, whatever their values. -/
theorem reg_access_clock_bracket (env : Env) (s : State) (macro_id reg val fn : Nat)
    (hup : s.dev_up = true) (hm : macro_id < MAX_MACRO)
    (hc : s.current_mclk_mux_macro macro_id < MAX_MACRO)
    (hfn : (s.macro_params (s.current_mclk_mux_macro macro_id)).mclk_fn = some fn)
    (hen : env.mclk_fn (s.trace ++ [Event.pm_runtime_get_sync (s.macro_params VA_MACRO).dev]) fn
            (s.macro_params (s.current_mclk_mux_macro macro_id)).dev true = 0) :
    __bolero_reg_read env s macro_id reg =
      some (0,
        some (env.ioread32
          (s.trace ++ [Event.pm_runtime_get_sync (s.macro_params VA_MACRO).dev,
            Event.mclk_fn fn (s.macro_params (s.current_mclk_mux_macro macro_id)).dev true])
          (s.macro_params macro_id).io_base reg % 256),
        { s with
          trace := s.trace ++
            [Event.pm_runtime_get_sync (s.macro_params VA_MACRO).dev,
             Event.mclk_fn fn (s.macro_params (s.current_mclk_mux_macro macro_id)).dev true,
             Event.ioread32 (s.macro_params macro_id).io_base reg,
             Event.mclk_fn fn (s.macro_params (s.current_mclk_mux_macro macro_id)).dev false,
             Event.pm_runtime_mark_last_busy (s.macro_params VA_MACRO).dev,
             Event.pm_runtime_put_autosuspend (s.macro_params VA_MACRO).dev] }) ∧
    __bolero_reg_write env s macro_id reg val =
      some (0,
        { s with
          trace := s.trace ++
            [Event.pm_runtime_get_sync (s.macro_params VA_MACRO).dev,
             Event.mclk_fn fn (s.macro_params (s.current_mclk_mux_macro macro_id)).dev true,
             Event.iowrite32 (s.macro_params macro_id).io_base reg (val % 256),
             Event.mclk_fn fn (s.macro_params (s.current_mclk_mux_macro macro_id)).dev false,
             Event.pm_runtime_mark_last_busy (s.macro_params VA_MACRO).dev,
             Event.pm_runtime_put_autosuspend (s.macro_params VA_MACRO).dev] }) := by
  constructor
  · unfold __bolero_reg_read
    simp only [hup, Bool.not_true, Bool.false_eq_true, if_false, hm, if_true, emit_current,
      emit_macro_params, hc, hfn]
    rw [call_mclk_eq env (emit s _) _ fn true hc hfn]
    simp only [emit_trace, emit_macro_params, hen, ne_eq, not_true_eq_false, if_false]
    rw [call_mclk_eq env (emit (emit (emit s _) _) _) _ fn false hc hfn]
    simp [reg_exit, emit, hup]
  · unfold __bolero_reg_write
    simp only [hup, Bool.not_true, Bool.false_eq_true, if_false, hm, if_true, emit_current,
      emit_macro_params, hc, hfn]
    rw [call_mclk_eq env (emit s _) _ fn true hc hfn]
    simp only [emit_trace, emit_macro_params, hen, ne_eq, not_true_eq_false, if_false]
    rw [call_mclk_eq env (emit (emit (emit s _) _) _) _ fn false hc hfn]
    simp [reg_exit, emit, hup]

/-- Witness for C21: a read and a write of RX register 4 in `demo_state`,
where the active source of RX is TX with clock callback 10. -/
theorem reg_access_clock_bracket_witness :
    __bolero_reg_read demo_env demo_state RX_MACRO 4 =
      some (0, some 0,
        { demo_state with
          trace := demo_state.trace ++
            [Event.pm_runtime_get_sync none,
             Event.mclk_fn 10 (some 100) true,
             Event.ioread32 none 4,
             Event.mclk_fn 10 (some 100) false,
             Event.pm_runtime_mark_last_busy none,
             Event.pm_runtime_put_autosuspend none] }) ∧
    __bolero_reg_write demo_env demo_state RX_MACRO 4 300 =
      some (0,
        { demo_state with
          trace := demo_state.trace ++
            [Event.pm_runtime_get_sync none,
             Event.mclk_fn 10 (some 100) true,
             Event.iowrite32 none 4 44,
             Event.mclk_fn 10 (some 100) false,
             Event.pm_runtime_mark_last_busy none,
             Event.pm_runtime_put_autosuspend none] }) :=
  reg_access_clock_bracket demo_env demo_state RX_MACRO 4 300 10
    (by decide) (by decide) (by decide) (by decide) (by decide)

/-! ### SSR controller: per-macro handler calls -/

theorem handler_events_indices (s : State) (evt : macro_evt) :
    handler_events s evt macro_indices =
      handler_event s evt TX_MACRO ++ handler_event s evt RX_MACRO
        ++ handler_event s evt WSA_MACRO ++ handler_event s evt VA_MACRO := by
  simp only [handler_events, macro_indices_eq, handler_event, TX_MACRO, RX_MACRO, WSA_MACRO,
    VA_MACRO]
  cases h0 : (s.macro_params 0).event_handler <;> cases h1 : (s.macro_params 1).event_handler <;>
    cases h2 : (s.macro_params 2).event_handler <;>
    cases h3 : (s.macro_params 3).event_handler <;>
    simp [List.filterMap, h0, h1, h2, h3]

/-! ### C22 -/

/-- C22: every on_up that is not the suppressed initial transition
(`initial_boot = false`) returns 0 and makes exactly these calls, in this order:
the wait-for-reset event to the VA macro's handler, if it has one; cache-only
off; SSR_UP to the handler of each macro that has one, once each, in the order
TX, RX, WSA, VA of ascending identity; the restart-up notification.  `dev_up`
is set to true exactly once, and the store is recorded at the moment when the
calls made so far are the wait-for-reset event (if any) and cache-only off:
after cache-only off and before every SSR_UP call and the broadcast.  The
handler loop and the broadcast run from a state `mid` in which `dev_up` is
already true and the trace ends with cache-only off. -/
theorem ssr_enable_order (s : State) (hboot : s.initial_boot = false) :
    (bolero_ssr_enable s).1 = 0 ∧
    (bolero_ssr_enable s).2.dev_up = true ∧
    (bolero_ssr_enable s).2.trace =
      s.trace
        ++ handler_event s macro_evt.BOLERO_MACRO_EVT_WAIT_VA_CLK_RESET VA_MACRO
        ++ [Event.regcache_cache_only false]
        ++ (handler_event s macro_evt.BOLERO_MACRO_EVT_SSR_UP TX_MACRO
            ++ handler_event s macro_evt.BOLERO_MACRO_EVT_SSR_UP RX_MACRO
            ++ handler_event s macro_evt.BOLERO_MACRO_EVT_SSR_UP WSA_MACRO
            ++ handler_event s macro_evt.BOLERO_MACRO_EVT_SSR_UP VA_MACRO)
        ++ [Event.blocking_notifier_call_chain wcd_evt.BOLERO_WCD_EVT_SSR_UP s.wcd_dev] ∧
    (TX_MACRO < RX_MACRO ∧ RX_MACRO < WSA_MACRO ∧ WSA_MACRO < VA_MACRO) ∧
    (∃ mid : State,
      mid.dev_up = true ∧
      mid.trace =
        s.trace ++ handler_event s macro_evt.BOLERO_MACRO_EVT_WAIT_VA_CLK_RESET VA_MACRO
          ++ [Event.regcache_cache_only false] ∧
      (bolero_ssr_enable s).2 =
        bolero_cdc_notifier_call
          (ssr_event_loop macro_evt.BOLERO_MACRO_EVT_SSR_UP macro_indices mid)
          wcd_evt.BOLERO_WCD_EVT_SSR_UP) ∧
    (bolero_ssr_enable s).2.dev_up_stores =
      s.dev_up_stores ++
        [((s.trace ++ handler_event s macro_evt.BOLERO_MACRO_EVT_WAIT_VA_CLK_RESET VA_MACRO
            ++ [Event.regcache_cache_only false]).length, true)] := by
  have he := ssr_enable_full s hboot
  refine ⟨by rw [he], by rw [he], ?_, by decide, ?_, by rw [he]⟩
  · rw [he]
    simp only [ssr_up_events, handler_events_indices]
    cases hv : (s.macro_params VA_MACRO).event_handler <;> simp [handler_event, hv]
  · unfold bolero_ssr_enable
    simp only [hboot, Bool.false_eq_true, if_false]
    refine ⟨_, ?_, ?_, rfl⟩
    · rfl
    · cases hv : (s.macro_params VA_MACRO).event_handler <;>
        simp [handler_event, hv, emit, set_dev_up]

/-- Witness for C22: an on_up in `demo_state_handlers`, where TX has event
handler 20 and VA has event handler 23; two calls precede it in the trace, so
the store to `dev_up` is recorded after the fourth call, cache-only off. -/
theorem ssr_enable_order_witness :
    demo_state_handlers.initial_boot = false ∧
    (bolero_ssr_enable demo_state_handlers).2.dev_up = true ∧
    (bolero_ssr_enable demo_state_handlers).2.trace =
      demo_state_handlers.trace ++
        [Event.event_handler 23 none macro_evt.BOLERO_MACRO_EVT_WAIT_VA_CLK_RESET 0,
         Event.regcache_cache_only false,
         Event.event_handler 20 none macro_evt.BOLERO_MACRO_EVT_SSR_UP 0,
         Event.event_handler 23 none macro_evt.BOLERO_MACRO_EVT_SSR_UP 0,
         Event.blocking_notifier_call_chain wcd_evt.BOLERO_WCD_EVT_SSR_UP none] ∧
    demo_state_handlers.trace.length = 2 ∧
    (bolero_ssr_enable demo_state_handlers).2.dev_up_stores = [(4, true)] :=
  ⟨by decide,
   (ssr_enable_order demo_state_handlers (by decide)).2.1,
   (ssr_enable_order demo_state_handlers (by decide)).2.2.1,
   by decide,
   (ssr_enable_order demo_state_handlers (by decide)).2.2.2.2.2⟩

/-! ### C23 -/

/-- C23 fails on the code: in `demo_state_rx_only` the lifecycle state is Up
and the active source of RX is TX, which has no clock callback.  With the
runtime-PM get returning 0, `__bolero_reg_write` returns 0 although no bus
access was made, while `__bolero_reg_read` returns `-EINVAL` in the same state. -/
theorem reg_write_reports_success_without_bus_write :
    demo_state_rx_only.dev_up = true ∧
    State.current_mclk_mux_macro demo_state_rx_only RX_MACRO = TX_MACRO ∧
    (demo_state_rx_only.macro_params TX_MACRO).mclk_fn = none ∧
    demo_env.pm_runtime_get_sync demo_state_rx_only.trace
        (demo_state_rx_only.macro_params VA_MACRO).dev = 0 ∧
    (__bolero_reg_write demo_env demo_state_rx_only RX_MACRO 4 9).map
        (fun r => (r.1, bus_accesses r.2.trace, r.2.trace.drop demo_state_rx_only.trace.length))
      = some (0, [],
          [Event.pm_runtime_get_sync none, Event.pm_runtime_mark_last_busy none,
           Event.pm_runtime_put_autosuspend none]) ∧
    (__bolero_reg_read demo_env demo_state_rx_only RX_MACRO 4).map
        (fun r => (r.1, r.2.1, bus_accesses r.2.2.trace))
      = some (-EINVAL, none, []) := by
  decide

/-! ### Clock-mux arbiter: invocations of one callback -/

theorem mclk_calls_append (fn : Nat) (dev : Option Nat) (t u : List Event) :
    mclk_calls fn dev (t ++ u) = mclk_calls fn dev t ++ mclk_calls fn dev u := by
  induction t with
  | nil => rfl
  | cons e t ih =>
    cases e with
    | mclk_fn f d en =>
      simp only [List.cons_append, mclk_calls]
      split_ifs
      · exact congrArg (List.cons en) ih
      · exact ih
    | _ => exact ih

theorem mclk_calls_gen_edge (fn : Nat) (dev : Option Nat) (enable : Bool) (c : Int) :
    mclk_calls fn dev
      (if enable = true then (if c = 0 then gen_on_writes else [])
       else (if c = 1 then gen_off_writes else [])) = [] := by
  cases enable <;> simp <;> split_ifs <;> rfl

/-! ### C24 -/

/-- C24 fails on the code: in `demo_state_patched` the WSA row of the mux table
names WSA as primary and as secondary source.  The cascaded enable for WSA,
every callback succeeding, returns 0 and invokes WSA's clock callback (handle
12) three times, with enable, enable, disable: not exactly twice, and one net
enable is left on the primary source. -/
theorem request_clock_mux1_same_source_three_invocations :
    demo_state_patched.bolero_mclk_mux_tbl WSA_MACRO MCLK_MUX0 = WSA_MACRO ∧
    demo_state_patched.bolero_mclk_mux_tbl WSA_MACRO MCLK_MUX1 = WSA_MACRO ∧
    (demo_state_patched.macro_params WSA_MACRO).mclk_fn = some 12 ∧
    (demo_state_patched.macro_params WSA_MACRO).dev = some 100 ∧
    (call_mclk demo_env_ok demo_state_patched WSA_MACRO true).map Prod.fst = some 0 ∧
    (bolero_request_clock demo_env_ok (some demo_dev) WSA_MACRO MCLK_MUX1 true
        demo_state_patched).map
        (fun r => (r.1, mclk_calls 12 (some 100) (r.2.trace.drop demo_state_patched.trace.length)))
      = some (0, [true, true, false]) := by
  decide

/-- C24, amended: for every cascaded request, enable or disable, with valid
arguments and both callbacks present, in which the primary's first invocation
returns 0, the call returns 0 and the calls made are exactly, in order: the
primary's callback with enable, the generator writes of the frame-sync edge (if
it is an edge), the secondary's callback with the requested flag, the primary's
callback with disable; this holds whatever the secondary returns, also when the
cascaded enable succeeds.  When the secondary's callback is not the primary's
(another function or another device), the primary's callback is thus invoked
exactly twice, with enable and then disable, and no net enable is left on it.
When the mux table names the same callback as primary and secondary, that
callback is invoked three times: enable, the requested flag, disable. -/
theorem request_clock_mux1_primary_bracket (env : Env) (s : State) (d : device)
    (macro_id fp fq : Nat) (enable : Bool)
    (hd : d.parent_compatible = true) (hpd : d.parent_drvdata = true)
    (hm : macro_id < MAX_MACRO)
    (hp : s.bolero_mclk_mux_tbl macro_id MCLK_MUX0 < MAX_MACRO)
    (hq : s.bolero_mclk_mux_tbl macro_id MCLK_MUX1 < MAX_MACRO)
    (hfp : (s.macro_params (s.bolero_mclk_mux_tbl macro_id MCLK_MUX0)).mclk_fn = some fp)
    (hfq : (s.macro_params (s.bolero_mclk_mux_tbl macro_id MCLK_MUX1)).mclk_fn = some fq)
    (h0 : env.mclk_fn s.trace fp
            (s.macro_params (s.bolero_mclk_mux_tbl macro_id MCLK_MUX0)).dev true = 0) :
    ∃ s', bolero_request_clock env (some d) macro_id MCLK_MUX1 enable s = some (0, s') ∧
      s'.trace =
        s.trace ++ [Event.mclk_fn fp
              (s.macro_params (s.bolero_mclk_mux_tbl macro_id MCLK_MUX0)).dev true]
          ++ (if enable = true then (if s.clk_users = 0 then gen_on_writes else [])
              else (if s.clk_users = 1 then gen_off_writes else []))
          ++ [Event.mclk_fn fq
                (s.macro_params (s.bolero_mclk_mux_tbl macro_id MCLK_MUX1)).dev enable,
              Event.mclk_fn fp
                (s.macro_params (s.bolero_mclk_mux_tbl macro_id MCLK_MUX0)).dev false] ∧
      (¬ (fq = fp ∧
            (s.macro_params (s.bolero_mclk_mux_tbl macro_id MCLK_MUX1)).dev =
              (s.macro_params (s.bolero_mclk_mux_tbl macro_id MCLK_MUX0)).dev) →
        mclk_calls fp (s.macro_params (s.bolero_mclk_mux_tbl macro_id MCLK_MUX0)).dev
            (s'.trace.drop s.trace.length) = [true, false]) ∧
      ((fq = fp ∧
            (s.macro_params (s.bolero_mclk_mux_tbl macro_id MCLK_MUX1)).dev =
              (s.macro_params (s.bolero_mclk_mux_tbl macro_id MCLK_MUX0)).dev) →
        mclk_calls fp (s.macro_params (s.bolero_mclk_mux_tbl macro_id MCLK_MUX0)).dev
            (s'.trace.drop s.trace.length) = [true, enable, false]) := by
  have hres : ∃ s', bolero_request_clock env (some d) macro_id MCLK_MUX1 enable s = some (0, s') ∧
      s'.trace =
        s.trace ++ ([Event.mclk_fn fp
              (s.macro_params (s.bolero_mclk_mux_tbl macro_id MCLK_MUX0)).dev true]
          ++ (if enable = true then (if s.clk_users = 0 then gen_on_writes else [])
              else (if s.clk_users = 1 then gen_off_writes else []))
          ++ [Event.mclk_fn fq
                (s.macro_params (s.bolero_mclk_mux_tbl macro_id MCLK_MUX1)).dev enable,
              Event.mclk_fn fp
                (s.macro_params (s.bolero_mclk_mux_tbl macro_id MCLK_MUX0)).dev false]) := by
    cases enable with
    | false =>
      have heq := request_clock_mux1_disable_eq env s d macro_id fp fq hd hpd hm hp hq hfp hfq
      rw [h0] at heq
      exact ⟨_, heq, by simp⟩
    | true =>
      by_cases h1 : env.mclk_fn
          (s.trace ++ [Event.mclk_fn fp
              (s.macro_params (s.bolero_mclk_mux_tbl macro_id MCLK_MUX0)).dev true]
            ++ (if s.clk_users = 0 then gen_on_writes else []))
          fq (s.macro_params (s.bolero_mclk_mux_tbl macro_id MCLK_MUX1)).dev true = 0
      · exact ⟨_, request_clock_mux1_enable_eq env s d macro_id fp fq hd hpd hm hp hq hfp hfq h0 h1,
          by simp⟩
      · exact ⟨_, request_clock_mux1_secondary_fails env s d macro_id fp fq hd hpd hm hp hq hfp hfq
          h0 h1, by simp⟩
  obtain ⟨s', hreq, htr⟩ := hres
  refine ⟨s', hreq, by rw [htr]; simp only [List.append_assoc], ?_, ?_⟩
  · intro hdiff
    rw [htr, List.drop_left, mclk_calls_append, mclk_calls_append, mclk_calls_gen_edge]
    simp [mclk_calls, hdiff]
  · intro hsame
    rw [htr, List.drop_left, mclk_calls_append, mclk_calls_append, mclk_calls_gen_edge]
    simp [mclk_calls, hsame]

/-- Witness for C24 (amended): the cascaded enable for RX in `demo_state` with
every callback succeeding; the primary is TX (callback 10) and the secondary RX
(callback 11). -/
theorem request_clock_mux1_primary_bracket_witness :
    ∃ s', bolero_request_clock demo_env_ok (some demo_dev) RX_MACRO MCLK_MUX1 true demo_state
        = some (0, s') ∧
      s'.trace =
        demo_state.trace ++ [Event.mclk_fn 10 (some 100) true] ++ gen_on_writes
          ++ [Event.mclk_fn 11 (some 100) true, Event.mclk_fn 10 (some 100) false] ∧
      mclk_calls 10 (some 100) (s'.trace.drop demo_state.trace.length) = [true, false] :=
  match request_clock_mux1_primary_bracket demo_env_ok demo_state demo_dev RX_MACRO 10 11 true
      rfl rfl (by decide) (by decide) (by decide) (by decide) (by decide) (by decide) with
  | ⟨s', h1, h2, h3, _⟩ => ⟨s', h1, h2, h3 (by decide)⟩

/-! ### C25 -/

/-- C25 fails on the code: with one macro expected, TX attaches with one
descriptor, which allocates the buffer with 1 entry; TX detaches; RX attaches
with two descriptors.  All three calls pass the argument checks.  The last
attach reaches the expected count again and the copy loop copies 2 descriptors
into the buffer that still has 1 entry: the second one lands past its end. -/
theorem copy_exceeds_allocated_buffer :
    ops_admissible []
        [registry_op.attach demo_attach_tx, registry_op.detach demo_dev TX_MACRO,
         registry_op.attach demo_attach_rx] = true ∧
    (registry_run demo_env
        [registry_op.attach demo_attach_tx, registry_op.detach demo_dev TX_MACRO]
        (probe_state 7 1)).bolero_dais = some { cap := 1, mem := [⟨5⟩] } ∧
    (copy_loop
        (registry_run demo_env
          [registry_op.attach demo_attach_tx, registry_op.detach demo_dev TX_MACRO,
           registry_op.attach demo_attach_rx] (probe_state 7 1)).macro_params
        macro_indices 0 [⟨5⟩]) = (2, [⟨7⟩, ⟨8⟩]) ∧
    (registry_run demo_env
        [registry_op.attach demo_attach_tx, registry_op.detach demo_dev TX_MACRO,
         registry_op.attach demo_attach_rx] (probe_state 7 1)).bolero_dais =
      some { cap := 1, mem := [⟨7⟩, ⟨8⟩] } ∧
    registration_calls
        (registry_run demo_env
          [registry_op.attach demo_attach_tx, registry_op.detach demo_dev TX_MACRO,
           registry_op.attach demo_attach_rx] (probe_state 7 1)).trace = [true, false, true] := by
  decide

/-! ### Frame-sync generator: counting the calls -/

end Bolero
